import Mathlib

/-!
Shallow embedding of litegl.js `src/mesh.js` (class GL.Buffer, class GL.Mesh and
its geometry processors), used to check the natural-language specification
against the code.

Modelling conventions:
* JS numbers are modelled as exact rationals (`ℚ`); 32-bit float rounding is
  idealized as the identity.  The real-valued geometry processors
  (`computeNormals`, `computeTangents`), which divide by square roots, are
  modelled over `ℝ` with `Real.sqrt`.
* Typed arrays are modelled as a `Kind` tag plus a list of values; storing a
  value into a typed array applies the kind's JS conversion (`coerce`).
* JS objects used as string-keyed dictionaries are modelled as association
  lists in insertion order (JS enumeration order for string keys).
* Exceptions are modelled with `Except String` or an explicit
  `Option String` "thrown" component; `console.error` / `console.warn`
  diagnostics are surfaced as explicit message or boolean components.
-/

namespace LiteGL

/-- The typed-array element kinds accepted by `GL.Buffer.prototype.upload`
(switch on `data.constructor`, mesh.js lines 140-151). -/
inductive Kind where
  | int8
  | uint8
  | uint8Clamped
  | int16
  | uint16
  | int32
  | uint32
  | float32
deriving DecidableEq, Repr

/-- Modelled from the spec: `getClassName` (defined outside the excerpted core,
in litegl's utility layer) returns the constructor name of a typed array; the
spec fixes the serialized `data_type` tag to be this name (§6: serialized
buffer shape). -/
def className : Kind → String
  | .int8 => "Int8Array"
  | .uint8 => "Uint8Array"
  | .uint8Clamped => "Uint8ClampedArray"
  | .int16 => "Int16Array"
  | .uint16 => "Uint16Array"
  | .int32 => "Int32Array"
  | .uint32 => "Uint32Array"
  | .float32 => "Float32Array"

/-- `global[ o.data_type ] || Float32Array` (mesh.js line 281): look a
constructor up by name, falling back to `Float32Array`. -/
def classOfName (s : String) : Kind :=
  if s = "Int8Array" then .int8
  else if s = "Uint8Array" then .uint8
  else if s = "Uint8ClampedArray" then .uint8Clamped
  else if s = "Int16Array" then .int16
  else if s = "Uint16Array" then .uint16
  else if s = "Int32Array" then .int32
  else if s = "Uint32Array" then .uint32
  else .float32

/-- JS ToInteger: truncation toward zero. -/
def truncQ (q : ℚ) : ℤ :=
  if 0 ≤ q then ⌊q⌋ else ⌈q⌉

/-- Wrap an integer into `[0, 2^bits)` (JS ToUint8/ToUint16/ToUint32). -/
def wrapU (bits : ℕ) (z : ℤ) : ℤ :=
  z % (2 ^ bits : ℕ)

/-- Wrap an integer into `[-2^(bits-1), 2^(bits-1))` (JS ToInt8/ToInt16/ToInt32). -/
def wrapS (bits : ℕ) (z : ℤ) : ℤ :=
  let r := z % (2 ^ bits : ℕ)
  if r < (2 ^ (bits - 1) : ℕ) then r else r - (2 ^ bits : ℕ)

/-- JS round-half-to-even after clamping to `[0,255]`, the conversion used by
`Uint8ClampedArray`. -/
def clampRound (q : ℚ) : ℤ :=
  if q ≤ 0 then 0
  else if 255 ≤ q then 255
  else
    let f := q - ⌊q⌋
    if f < 1/2 then ⌊q⌋
    else if 1/2 < f then ⌊q⌋ + 1
    else if 2 ∣ ⌊q⌋ then ⌊q⌋ else ⌊q⌋ + 1

/-- Idealized conversion of a JS number to 32-bit float storage: modelled as
exact (no rounding). -/
def toFloat32 (q : ℚ) : ℚ := q

/-- Storing a JS number into a typed array of the given kind. -/
def coerce : Kind → ℚ → ℚ
  | .int8, q => (wrapS 8 (truncQ q) : ℚ)
  | .uint8, q => (wrapU 8 (truncQ q) : ℚ)
  | .uint8Clamped, q => (clampRound q : ℚ)
  | .int16, q => (wrapS 16 (truncQ q) : ℚ)
  | .uint16, q => (wrapU 16 (truncQ q) : ℚ)
  | .int32, q => (wrapS 32 (truncQ q) : ℚ)
  | .uint32, q => (wrapU 32 (truncQ q) : ℚ)
  | .float32, q => toFloat32 q

/-- A typed array: element kind plus stored values. -/
structure TypedData where
  kind : Kind
  vals : List ℚ
deriving DecidableEq, Repr

/-! WebGL enumerant values used by the source. -/

def GL_ARRAY_BUFFER : ℕ := 34962
def GL_ELEMENT_ARRAY_BUFFER : ℕ := 34963
def GL_BYTE : ℕ := 5120
def GL_UNSIGNED_BYTE : ℕ := 5121
def GL_SHORT : ℕ := 5122
def GL_UNSIGNED_SHORT : ℕ := 5123
def GL_INT : ℕ := 5124
def GL_UNSIGNED_INT : ℕ := 5125
def GL_FLOAT : ℕ := 5126

/-- The `switch( data.constructor )` of `GL.Buffer.prototype.upload`
(mesh.js lines 140-151). -/
def glTypeOf : Kind → ℕ
  | .int8 => GL_BYTE
  | .uint8 => GL_UNSIGNED_BYTE
  | .uint8Clamped => GL_UNSIGNED_BYTE
  | .int16 => GL_SHORT
  | .uint16 => GL_UNSIGNED_SHORT
  | .int32 => GL_INT
  | .uint32 => GL_UNSIGNED_INT
  | .float32 => GL_FLOAT

/-- `GL.Buffer` host-side state: target, shader attribute name, component
spacing, normalize flag, optional typed-array storage and the device element
type recorded by the last upload (`this.buffer.gl_type`). -/
structure Buffer where
  target : ℕ
  attrib : Option String
  spacing : ℚ
  normalize : Bool
  data : Option TypedData
  glType : Option ℕ
deriving DecidableEq, Repr

/-- The `GL.Buffer` constructor (mesh.js lines 35-54): `this.spacing =
spacing || 3`, attribute unset, normalize false.  Device upload effects are
modelled separately by `Buffer.upload`. -/
def Buffer.make (target : ℕ) (data : Option TypedData) (spacing : ℚ) : Buffer :=
  { target := target
    attrib := none
    spacing := if spacing = 0 then 3 else spacing
    normalize := false
    data := data
    glType := none }

/-- Result of `GL.Buffer.prototype.upload`: updated host state, the data
actually handed to `gl.bufferData`, and whether the UINT32/INT32 widening
warning was printed. -/
structure UploadResult where
  buffer : Buffer
  deviceData : TypedData
  warned : Bool
deriving DecidableEq, Repr

/-- `GL.Buffer.prototype.upload` (mesh.js lines 118-162), for a buffer whose
context is live.  A vertex buffer (target `ARRAY_BUFFER`) holding 32-bit
integer data is widened to float with a `console.warn`; every other kind is
uploaded as itself. -/
def Buffer.upload (b : Buffer) : Except String UploadResult :=
  match b.data with
  | none => .error "No data supplied"
  | some d =>
    let t := glTypeOf d.kind
    if b.target = GL_ARRAY_BUFFER ∧ (t = GL_INT ∨ t = GL_UNSIGNED_INT) then
      .ok { buffer := { b with glType := some GL_FLOAT }
            deviceData := { kind := .float32, vals := d.vals.map toFloat32 }
            warned := true }
    else
      .ok { buffer := { b with glType := some t }
            deviceData := d
            warned := false }

/-- Overwrite `src.length` entries of `dst` starting at position `pos`
(`TypedArray.prototype.set`). -/
def listSet (dst src : List ℚ) (pos : ℕ) : List ℚ :=
  dst.mapIdx fun i v => if pos ≤ i ∧ i < pos + src.length then src.getD (i - pos) v else v

/-- `GL.Buffer.prototype.setData` (mesh.js lines 173-204).  Returns the buffer
state after the call together with the thrown exception, if any (`none` means
the call returned normally).  The final branch of the source patches through a
raw `Uint8Array` view at a byte offset; it is modelled at element granularity
(`offset` counts elements), which coincides with the source for the aligned
same-kind patches the byte view performs verbatim. -/
def Buffer.setData (b : Buffer) (d : TypedData) (offset : ℕ) : Buffer × Option String :=
  match b.data with
  | none => ({ b with data := some d }, none)
  | some sd =>
    if sd.vals.length < d.vals.length then
      (b, some "buffer is not big enough, you cannot set data to a smaller buffer")
    else if sd.vals.length = d.vals.length then
      ({ b with data := some { kind := sd.kind, vals := d.vals.map (coerce sd.kind) } }, none)
    else if sd.vals.length < offset + d.vals.length then
      (b, some "RangeError: offset is out of bounds")
    else
      ({ b with data := some { kind := sd.kind, vals := listSet sd.vals d.vals offset } }, none)

/-- The serialized buffer shape `\x7bdata_type, data, target, attribute,
spacing\x7d` (mesh.js lines 262-277 and spec §6). -/
structure BufferJSON where
  data_type : String
  data : List ℚ
  target : ℕ
  attrib : Option String
  spacing : ℚ
deriving DecidableEq, Repr

/-- `GL.Buffer.prototype.toJSON` (mesh.js lines 262-277); `none` models the
`console.error` + `return null` path for a buffer without data.  The
`data` field is `this.data.toJSON()`; modelled from the spec: the typed-array
`toJSON` helper (defined outside the excerpted core) serializes the stored
values as a plain number array (§6 round-trip fidelity). -/
def Buffer.toJSON (b : Buffer) : Option BufferJSON :=
  match b.data with
  | none => none
  | some d =>
    some { data_type := className d.kind
           data := d.vals
           target := b.target
           attrib := b.attrib
           spacing := b.spacing }

/-- `GL.Buffer.prototype.fromJSON` (mesh.js lines 279-287): mutates the
receiver `b`; `new data_type( o.data )` stores each value through the kind's
conversion, and `this.spacing = o.spacing || 3`. -/
def Buffer.fromJSON (b : Buffer) (o : BufferJSON) : Buffer :=
  let k := classOfName o.data_type
  { b with
    data := some { kind := k, vals := o.data.map (coerce k) }
    target := o.target
    spacing := if o.spacing = 0 then 3 else o.spacing
    attrib := o.attrib }

/-! ## Mesh container -/

/-- Lookup in a JS object modelled as an association list. -/
def alookup {α : Type} (l : List (String × α)) (k : String) : Option α :=
  (l.find? fun p => p.1 = k).map Prod.snd

/-- Assignment in a JS object: replace in place if the key exists, else append
(JS string-key enumeration order). -/
def aset {α : Type} (l : List (String × α)) (k : String) (v : α) : List (String × α) :=
  if (l.find? fun p => p.1 = k).isSome then
    l.map fun p => if p.1 = k then (k, v) else p
  else
    l ++ [(k, v)]

/-- One entry of `Mesh.common_buffers` (mesh.js lines 341-356). -/
structure CommonInfo where
  spacing : ℚ
  attrib : String
  normalize : Bool := false
  type : Option Kind := none

/-- `Mesh.common_buffers`: generic info for well-known buffer names. -/
def common_buffers : String → Option CommonInfo
  | "vertices" => some { spacing := 3, attrib := "a_vertex" }
  | "vertices2D" => some { spacing := 2, attrib := "a_vertex2D" }
  | "normals" => some { spacing := 3, attrib := "a_normal", normalize := true }
  | "coords" => some { spacing := 2, attrib := "a_coord" }
  | "coords1" => some { spacing := 2, attrib := "a_coord1" }
  | "coords2" => some { spacing := 2, attrib := "a_coord2" }
  | "colors" => some { spacing := 4, attrib := "a_color", normalize := true }
  | "tangents" => some { spacing := 3, attrib := "a_tangent" }
  | "bone_indices" => some { spacing := 4, attrib := "a_bone_indices", type := some .uint8 }
  | "weights" => some { spacing := 4, attrib := "a_weights", normalize := true }
  | "extra" => some { spacing := 1, attrib := "a_extra" }
  | "extra2" => some { spacing := 2, attrib := "a_extra2" }
  | "extra3" => some { spacing := 3, attrib := "a_extra3" }
  | "extra4" => some { spacing := 4, attrib := "a_extra4" }
  | _ => none

/-- `GL.Mesh` container state: named vertex buffers and index buffers. -/
structure MeshQ where
  vertexBuffers : List (String × Buffer) := []
  indexBuffers : List (String × Buffer) := []
deriving DecidableEq, Repr

/-- Is this kind one of the integer typed-array kinds listed at mesh.js
lines 537-542 (everything except `Float32Array`)? -/
def Kind.isInt : Kind → Bool
  | .float32 => false
  | _ => true

/-- `Mesh.prototype.createVertexBuffer` (mesh.js lines 502-549) for a call
that supplies data (the source's empty-allocation branch for omitted data is
not exercised by any claim and is not modelled; the model requires `data`). -/
def MeshQ.createVertexBuffer (m : MeshQ) (name : String) (attrib0 : Option String)
    (spacing0 : ℚ) (data : TypedData) : Except String (MeshQ × Buffer) :=
  let common := common_buffers name
  let attrib1 := match attrib0 with
    | some a => some a
    | none => common.map fun c => c.attrib
  match attrib1 with
  | none => .error "Buffer added to mesh without attribute name"
  | some attr =>
    let spacing1 :=
      if spacing0 = 0 then
        match common with
        | some c => if c.spacing = 0 then 3 else c.spacing
        | none => spacing0
      else spacing0
    let b0 := Buffer.make GL_ARRAY_BUFFER (some data) spacing1
    let normalizeFlag : Bool := data.kind.isInt && (match common with
      | some c => c.normalize
      | none => false)
    let buf := { b0 with attrib := some attr, normalize := normalizeFlag }
    .ok ({ m with vertexBuffers := aset m.vertexBuffers name buf }, buf)

/-- `Mesh.prototype.updateVertexBuffer` (mesh.js lines 560-575). -/
def MeshQ.updateVertexBuffer (m : MeshQ) (name : String) (attr : String)
    (spacing : ℚ) (data : TypedData) : MeshQ :=
  match alookup m.vertexBuffers name with
  | none => m
  | some b =>
    if data.vals.length = 0 then m
    else
      let b1 := { b with attrib := some attr, spacing := spacing, data := some data }
      { m with vertexBuffers := aset m.vertexBuffers name b1 }

/-- Index-buffer payloads accepted by the modelled `createIndexBuffer` /
`addBuffers` paths: an existing typed array or a plain JS number array. -/
inductive IPayload where
  | typed (d : TypedData)
  | plain (vals : List ℚ)
deriving DecidableEq, Repr

/-- The index-storage width choice `num_vertices > 256*256 ? Uint32Array :
Uint16Array` shared by `Mesh.prototype.addBuffers` (mesh.js lines 482-484) and
`Mesh.prototype.createIndexBuffer` (mesh.js lines 618-624). -/
def meshIndexDatatype (num_vertices : ℚ) : Kind :=
  if num_vertices > 256 * 256 then .uint32 else .uint16

/-- `Mesh.prototype.createIndexBuffer` (mesh.js lines 612-631).  A plain-array
payload is cast using the vertex count of the mesh's "vertices" buffer; with
no "vertices" buffer the payload stays a plain array and the `GL.Buffer`
constructor's upload throws for non-typed data. -/
def MeshQ.createIndexBuffer (m : MeshQ) (name : String) (payload : IPayload) :
    Except String (MeshQ × Buffer) :=
  match payload with
  | .plain vals =>
    match alookup m.vertexBuffers "vertices" with
    | some vb =>
      match vb.data with
      | none => .error "TypeError: null vertex data"
      | some vd =>
        let num_vertices : ℚ := (vd.vals.length : ℚ) / 3
        let k := meshIndexDatatype num_vertices
        let buf := Buffer.make GL_ELEMENT_ARRAY_BUFFER
          (some { kind := k, vals := vals.map (coerce k) }) 0
        .ok ({ m with indexBuffers := aset m.indexBuffers name buf }, buf)
    | none => .error "Buffers must be typed arrays"
  | .typed d =>
    let buf := Buffer.make GL_ELEMENT_ARRAY_BUFFER (some d) 0
    .ok ({ m with indexBuffers := aset m.indexBuffers name buf }, buf)

/-- Vertex-buffer payloads accepted by the modelled `addBuffers`: typed
arrays, plain number arrays, and nested arrays-of-tuples (linearized by the
source's chunked `concat` loop, i.e. flattened one level).  Payloads that are
`GL.Buffer` objects are not exercised by any claim and are not modelled. -/
inductive VPayload where
  | typed (d : TypedData)
  | plain (vals : List ℚ)
  | nested (rows : List (List ℚ))
deriving DecidableEq, Repr

/-- One iteration of the vertex loop of `Mesh.prototype.addBuffers`
(mesh.js lines 412-458).  Returns the updated mesh and the updated
`num_vertices` running value.  `num_vertices` is a rational because the
source computes it as a JS division `data.length / 3` (the division-by-zero
edge, reachable only for an unknown attribute name on a mesh without
vertices, yields 0 here where JS would yield Infinity; no claim exercises
it). -/
def addVertexPayload (m : MeshQ) (num_vertices : ℚ) (name : String) (p : VPayload) :
    Except String (MeshQ × ℚ) :=
  let d : TypedData :=
    match p with
    | .typed d => d
    | .plain vals =>
      let dt := match common_buffers name with
        | some c => c.type.getD .float32
        | none => .float32
      { kind := dt, vals := vals.map (coerce dt) }
    | .nested rows =>
      let vals := rows.flatten
      let dt := match common_buffers name with
        | some c => c.type.getD .float32
        | none => .float32
      { kind := dt, vals := vals.map (coerce dt) }
  let num1 := if name = "vertices" then (d.vals.length : ℚ) / 3 else num_vertices
  let spacing0 := (d.vals.length : ℚ) / num1
  let spacing1 := match common_buffers name with
    | some c => if c.spacing = 0 then spacing0 else c.spacing
    | none => spacing0
  let attr := match common_buffers name with
    | some c => c.attrib
    | none => "a_" ++ name
  match alookup m.vertexBuffers name with
  | some _ => .ok (m.updateVertexBuffer name attr spacing1 d, num1)
  | none => do
    let r ← m.createVertexBuffer name (some attr) spacing1 d
    .ok (r.1, num1)

/-- The vertex loop of `Mesh.prototype.addBuffers`. -/
def addVertexList (m : MeshQ) (num_vertices : ℚ) :
    List (String × VPayload) → Except String (MeshQ × ℚ)
  | [] => .ok (m, num_vertices)
  | (name, p) :: rest => do
    let r ← addVertexPayload m num_vertices name p
    addVertexList r.1 r.2 rest

/-- The index loop of `Mesh.prototype.addBuffers` (mesh.js lines 460-489):
a plain-array payload is cast to `meshIndexDatatype num_vertices` before
`createIndexBuffer` is called (so the latter's own cast branch is skipped). -/
def addIndexList (m : MeshQ) (num_vertices : ℚ) :
    List (String × IPayload) → Except String MeshQ
  | [] => .ok m
  | (name, p) :: rest => do
    let d : IPayload :=
      match p with
      | .plain vals =>
        let k := meshIndexDatatype num_vertices
        .typed { kind := k, vals := vals.map (coerce k) }
      | .typed d => .typed d
    let r ← m.createIndexBuffer name d
    addIndexList r.1 num_vertices rest

/-- `Mesh.prototype.addBuffers` (mesh.js lines 405-490). -/
def MeshQ.addBuffers (m : MeshQ) (vertexbuffers : List (String × VPayload))
    (indexbuffers : List (String × IPayload)) : Except String MeshQ := do
  let num0 : ℚ ←
    match alookup m.vertexBuffers "vertices" with
    | some vb =>
      match vb.data with
      | some d => .ok ((d.vals.length : ℚ) / 3)
      | none => .error "TypeError: null vertex data"
    | none => .ok 0
  let r ← addVertexList m num0 vertexbuffers
  addIndexList r.1 r.2 indexbuffers

/-! ## computeIndices (vertex welding) -/

abbrev Vec3Q := ℚ × ℚ × ℚ

/-- `vec3.sqrDist`. -/
def sqrDistQ (a b : Vec3Q) : ℚ :=
  (b.1 - a.1) ^ 2 + (b.2.1 - a.2.1) ^ 2 + (b.2.2 - a.2.2) ^ 2

/-- JS `|0` (ToInt32): truncate toward zero, wrap to 32-bit signed. -/
def toInt32 (q : ℚ) : ℤ := wrapS 32 (truncQ q)

/-- Group a flat number list into complete 3-component vertices.  A trailing
partial vertex (flat length not a multiple of 3) is dropped; in the source it
is read as a short subarray whose missing components are NaN, so it can never
weld and is always emitted — no claim exercises that malformed case. -/
def chunk3Q : List ℚ → List Vec3Q
  | a :: b :: c :: rest => (a, b, c) :: chunk3Q rest
  | _ => []

/-- Group a flat number list into complete 2-component pairs. -/
def chunk2Q : List ℚ → List (ℚ × ℚ)
  | a :: b :: rest => (a, b) :: chunk2Q rest
  | _ => []

def flatten3 (l : List Vec3Q) : List ℚ := l.flatMap fun v => [v.1, v.2.1, v.2.2]

def flatten2 (l : List (ℚ × ℚ)) : List ℚ := l.flatMap fun v => [v.1, v.2]

/-- Bucket lookup in the spatial hash `indexer` (a plain JS object).  A
missing key behaves as the empty candidate list; the source never stores an
empty bucket, so `[]` faithfully plays the role of JS `undefined`. -/
def ilookup (l : List (ℤ × List ℕ)) (k : ℤ) : List ℕ :=
  ((l.find? fun p => p.1 = k).map Prod.snd).getD []

/-- Append an index to a bucket, creating the bucket if missing. -/
def ipush (l : List (ℤ × List ℕ)) (k : ℤ) (idx : ℕ) : List (ℤ × List ℕ) :=
  if (l.find? fun p => p.1 = k).isSome then
    l.map fun p => if p.1 = k then (p.1, p.2 ++ [idx]) else p
  else
    l ++ [(k, [idx])]

/-- The candidate scan of `Mesh.prototype.computeIndices` (mesh.js lines
1054-1070): position `j` of the first candidate whose unique vertex is within
squared distance 0.01 of `v`.  An out-of-range candidate reads `undefined` in
the source, giving a NaN distance that never passes the `< 0.01` test. -/
def weldScan (uniq : List Vec3Q) (v : Vec3Q) (candidates : List ℕ) : Option ℕ :=
  candidates.findIdx? fun c =>
    match uniq.get? c with
    | some v2 => sqrDistQ v v2 < 1 / 100
    | none => false

/-- Loop state of `Mesh.prototype.computeIndices`. -/
structure IndexerState where
  uniq : List Vec3Q
  newNormals : List Vec3Q
  newCoords : List (ℚ × ℚ)
  indices : List ℕ
  indexer : List (ℤ × List ℕ)
deriving DecidableEq, Repr

/-- The main loop of `Mesh.prototype.computeIndices` (mesh.js lines
1048-1100), keeping the source's exact behavior: on a weld the *scan
position* `j` is pushed (not `candidates[j]`), and a newly emitted vertex
records index `j = candidates.length` (the bucket size, not the number of
unique vertices). -/
def computeIndicesLoop (normsO : Option (List Vec3Q)) (coordsO : Option (List (ℚ × ℚ))) :
    IndexerState → List (ℕ × Vec3Q) → IndexerState
  | st, [] => st
  | st, (i, v) :: rest =>
    let key := toInt32 (v.1 * 1000)
    let candidates := ilookup st.indexer key
    let st1 :=
      match weldScan st.uniq v candidates with
      | some j => { st with indices := st.indices ++ [j] }
      | none =>
        let index := candidates.length
        { uniq := st.uniq ++ [v]
          newNormals :=
            match normsO with
            | some ns => st.newNormals ++ [ns.getD i (0, 0, 0)]
            | none => st.newNormals
          newCoords :=
            match coordsO with
            | some cs => st.newCoords ++ [cs.getD i (0, 0)]
            | none => st.newCoords
          indices := st.indices ++ [index]
          indexer := ipush st.indexer key index }
    computeIndicesLoop normsO coordsO st1 rest

/-- `Mesh.prototype.computeIndices` (mesh.js lines 1022-1112): weld vertices
through the X-quantized spatial hash, erase all vertex buffers, rebuild
"vertices" (and "normals"/"coords" if present) from the unique set, and create
a "triangles" index buffer from the collected indices. -/
def MeshQ.computeIndices (m : MeshQ) : Except String MeshQ := do
  match alookup m.vertexBuffers "vertices" with
  | none => .error "TypeError: no vertices buffer"
  | some vb =>
    match vb.data with
    | none => .error "TypeError: null vertex data"
    | some vd =>
      let normsO := ((alookup m.vertexBuffers "normals").bind fun b => b.data).map
        fun d => chunk3Q d.vals
      let coordsO := ((alookup m.vertexBuffers "coords").bind fun b => b.data).map
        fun d => chunk2Q d.vals
      let verts := chunk3Q vd.vals
      let st := computeIndicesLoop normsO coordsO
        { uniq := [], newNormals := [], newCoords := [], indices := [], indexer := [] }
        verts.enum
      let m1 : MeshQ := { m with vertexBuffers := [] }
      let r1 ← m1.createVertexBuffer "vertices" (some "a_vertex") 3
        { kind := .float32, vals := (flatten3 st.uniq).map toFloat32 }
      let m2 ← match normsO with
        | some _ => do
          let r ← r1.1.createVertexBuffer "normals" (some "a_normal") 3
            { kind := .float32, vals := (flatten3 st.newNormals).map toFloat32 }
          pure r.1
        | none => pure r1.1
      let m3 ← match coordsO with
        | some _ => do
          let r ← m2.createVertexBuffer "coords" (some "a_coord") 2
            { kind := .float32, vals := (flatten2 st.newCoords).map toFloat32 }
          pure r.1
        | none => pure m2
      let r4 ← m3.createIndexBuffer "triangles" (.plain (st.indices.map fun i => (i : ℚ)))
      pure r4.1

/-! ## JS number semantics with special values, and computeBoundingBox

`Mesh.computeBoundingBox` distinguishes NaN from other values, so its model
uses a JS-number type with exact special-value (IEEE) propagation; finite
arithmetic stays exact rationals. -/

inductive JSNum where
  | fin (q : ℚ)
  | nan
  | inf
  | ninf
deriving DecidableEq, Repr

def JSNum.isNaN : JSNum → Bool
  | .nan => true
  | _ => false

/-- `Math.min` (NaN-propagating). -/
def jsMin : JSNum → JSNum → JSNum
  | .nan, _ => .nan
  | _, .nan => .nan
  | .ninf, _ => .ninf
  | _, .ninf => .ninf
  | .inf, b => b
  | a, .inf => a
  | .fin a, .fin b => .fin (min a b)

/-- `Math.max` (NaN-propagating). -/
def jsMax : JSNum → JSNum → JSNum
  | .nan, _ => .nan
  | _, .nan => .nan
  | .inf, _ => .inf
  | _, .inf => .inf
  | .ninf, b => b
  | a, .ninf => a
  | .fin a, .fin b => .fin (max a b)

/-- IEEE addition on special values; finite addition exact. -/
def jsAdd : JSNum → JSNum → JSNum
  | .nan, _ => .nan
  | _, .nan => .nan
  | .inf, .ninf => .nan
  | .ninf, .inf => .nan
  | .inf, _ => .inf
  | _, .inf => .inf
  | .ninf, _ => .ninf
  | _, .ninf => .ninf
  | .fin a, .fin b => .fin (a + b)

def jsNeg : JSNum → JSNum
  | .fin a => .fin (-a)
  | .nan => .nan
  | .inf => .ninf
  | .ninf => .inf

def jsSub (a b : JSNum) : JSNum := jsAdd a (jsNeg b)

/-- Multiplication by the finite positive constant 0.5. -/
def jsHalf : JSNum → JSNum
  | .fin a => .fin (a / 2)
  | x => x

abbrev Vec3J := JSNum × JSNum × JSNum

def jsMin3 (a b : Vec3J) : Vec3J := (jsMin a.1 b.1, jsMin a.2.1 b.2.1, jsMin a.2.2 b.2.2)

def jsMax3 (a b : Vec3J) : Vec3J := (jsMax a.1 b.1, jsMax a.2.1 b.2.1, jsMax a.2.2 b.2.2)

def jsAdd3 (a b : Vec3J) : Vec3J := (jsAdd a.1 b.1, jsAdd a.2.1 b.2.1, jsAdd a.2.2 b.2.2)

def jsSub3 (a b : Vec3J) : Vec3J := (jsSub a.1 b.1, jsSub a.2.1 b.2.1, jsSub a.2.2 b.2.2)

def jsHalf3 (a : Vec3J) : Vec3J := (jsHalf a.1, jsHalf a.2.1, jsHalf a.2.2)

def zero3J : Vec3J := (.fin 0, .fin 0, .fin 0)

/-- Reading vertex `i`; past the end the source clones an empty subarray,
storing `undefined` into a float array, i.e. NaNs. -/
def vget (vs : List Vec3J) (i : ℕ) : Vec3J := vs.getD i (.nan, .nan, .nan)

def anyNaN3 (v : Vec3J) : Bool := v.1.isNaN || v.2.1.isNaN || v.2.2.isNaN

/-- One iteration of the min/max reduction loop of `Mesh.computeBoundingBox`
(mesh.js lines 1565-1572): vertex `i` is folded in unless the mask rules it
out. -/
def bboxStep (mask : Option (List Bool)) (vs : List Vec3J)
    (mm : Vec3J × Vec3J) (i : ℕ) : Vec3J × Vec3J :=
  let keep :=
    match mask with
    | some ms => ms.getD i false
    | none => true
  if keep then (jsMin3 (vget vs i) mm.1, jsMax3 (vget vs i) mm.2) else mm

/-- The reduced component-wise min and max of `Mesh.computeBoundingBox`
(mesh.js lines 1544-1572): pick the start vertex (first masked-in vertex, or
0), initialize min and max from it, then fold the loop over vertex indices
`start, start+1, ..., n-1`.  `none` models the early `console.warn` + return
for an empty mask. -/
def reduceMinMax (vs : List Vec3J) (mask : Option (List Bool)) :
    Option (Vec3J × Vec3J) :=
  match mask with
  | some ms =>
    let start := (ms.findIdx? id).getD 0
    if start = ms.length then none
    else
      some ((List.range' start (vs.length - start)).foldl (bboxStep mask vs)
        (vget vs start, vget vs start))
  | none =>
    some ((List.range' 0 vs.length).foldl (bboxStep mask vs)
      (vget vs 0, vget vs 0))

/-- The bounding volume.  Modelled from the spec: the `BBox` helper class
lives outside the excerpted core; spec §3 lists the bounding volume as
center, half-size, min, max, radius.  `BBox.setCenterHalfsize` stores the
given center and half-size and derives min/max as center ∓ half-size; the
radius scalar (the length of the half-size vector) is omitted here — no claim
mentions it. -/
structure BBoxJ where
  center : Vec3J
  halfsize : Vec3J
  bmin : Vec3J
  bmax : Vec3J
deriving DecidableEq, Repr

/-- Modelled from the spec: `BBox.setCenterHalfsize` (see `BBoxJ`). -/
def setCenterHalfsize (c hs : Vec3J) : BBoxJ :=
  { center := c, halfsize := hs, bmin := jsSub3 c hs, bmax := jsAdd3 c hs }

/-- `Mesh.computeBoundingBox` (mesh.js lines 1539-1587).  The boolean result
component records whether the NaN `console.warn` diagnostic fired.  Only NaN
components are detected (`isNaN(...)`, lines 1574-1575); infinities pass
through. -/
def computeBoundingBox (vs : List Vec3J) (mask : Option (List Bool)) :
    Option (BBoxJ × Bool) :=
  match reduceMinMax vs mask with
  | none => none
  | some (mn, mx) =>
    let nanFound := anyNaN3 mn || anyNaN3 mx
    let mn1 := if nanFound then zero3J else mn
    let mx1 := if nanFound then zero3J else mx
    let center := jsHalf3 (jsAdd3 mn1 mx1)
    let halfsize := jsSub3 mx1 center
    some (setCenterHalfsize center halfsize, nanFound)

/-! ## mergeMeshes

The model covers the parts the claims exercise: the first pass (vertex
counting, group creation, bone-list accumulation with its
unskinned-after-skinned throw) and the merged index buffers (width choice and
index re-basing).  The merged vertex-buffer payloads (allocation, per-stream
transform matrices) and the in-place remapping of each source mesh's
`bone_indices` values are not modelled — no claim depends on them. -/

/-- A source mesh as consumed by `Mesh.mergeMeshes`: buffer name → flat data,
plus the optional bone list (a bone is identified by its name, `b[0]` in the
source). -/
structure MergeMesh where
  vertexBuffers : List (String × List ℚ)
  indexBuffers : List (String × List ℚ)
  bones : Option (List String)
deriving DecidableEq, Repr

structure MergeGroup where
  name : String
  start : ℚ
  length : ℚ
  material : String
deriving DecidableEq, Repr

structure MergeOut where
  vertexOffsets : List ℚ
  totalVertices : ℚ
  groups : List MergeGroup
  bones : List String
  indexBuffers : List (String × TypedData)
deriving DecidableEq, Repr

structure MergeState where
  i : ℕ
  cv : ℚ
  vertexOffsets : List ℚ
  groups : List MergeGroup
  bones : List String
  bonesByIndex : List (String × ℕ)
  indexNames : List String
deriving DecidableEq, Repr

/-- The bone-accumulation loop (mesh.js lines 1938-1948).  The source guard
`if(!bones_by_index[b[0]])` is falsy for a stored index 0 as well, so the
bone that landed at index 0 is pushed again by every later mesh that carries
it — the model preserves this quirk. -/
def addBonesList (bones : List String) (byIdx : List (String × ℕ)) :
    List String → List String × List (String × ℕ)
  | [] => (bones, byIdx)
  | b :: rest =>
    if alookup byIdx b = none ∨ alookup byIdx b = some 0 then
      addBonesList (bones ++ [b]) (aset byIdx b bones.length) rest
    else
      addBonesList bones byIdx rest

/-- The state advance one source mesh contributes in the first pass of
`Mesh.mergeMeshes`: bump the mesh counter, add this mesh's vertex count
(`data.length / 3`, a JS division) to the running offset, record the offset
and the group, collect first-seen index-buffer names, and install the given
bone accumulators. -/
def mergeStepState (st : MergeState) (mm : MergeMesh) (vd : List ℚ)
    (bones : List String) (byIdx : List (String × ℕ)) : MergeState :=
  { i := st.i + 1
    cv := st.cv + (vd.length : ℚ) / 3
    vertexOffsets := st.vertexOffsets ++ [st.cv]
    groups := st.groups ++
      [{ name := "mesh_" ++ toString st.i, start := st.cv,
         length := (vd.length : ℚ) / 3, material := "" }]
    bones := bones
    bonesByIndex := byIdx
    indexNames := mm.indexBuffers.foldl
      (fun acc p => if p.1 ∈ acc then acc else acc ++ [p.1]) st.indexNames }

/-- First pass of `Mesh.mergeMeshes` (mesh.js lines 1902-1962): count
vertices, record per-mesh vertex offsets and groups, accumulate bones, and
throw when a boneless mesh is reached after bones have been collected.  A
mesh with a bone list must expose a "bone_indices" buffer (the remap step
dereferences it unconditionally). -/
def mergePass1 : MergeState → List MergeMesh → Except String MergeState
  | st, [] => .ok st
  | st, mm :: rest =>
    match alookup mm.vertexBuffers "vertices" with
    | none => .error "TypeError: no vertices buffer"
    | some vd =>
      match mm.bones with
      | some bs =>
        match alookup mm.vertexBuffers "bone_indices" with
        | none => .error "TypeError: no bone_indices buffer"
        | some _ =>
          let r := addBonesList st.bones st.bonesByIndex bs
          mergePass1 (mergeStepState st mm vd r.1 r.2) rest
      | none =>
        if st.bones.length ≠ 0 then
          .error "cannot merge meshes, one contains bones, the other doesnt"
        else
          mergePass1 (mergeStepState st mm vd st.bones st.bonesByIndex) rest

/-- The merged-index-width choice `current_vertex_offset < 256*256 ?
Uint16Array : Uint32Array` (mesh.js line 1994). -/
def mergeIndexDatatype (total : ℚ) : Kind :=
  if total < 256 * 256 then .uint16 else .uint32

/-- Merged data of one named index buffer (mesh.js lines 2030-2035 and
2059-2066): per source mesh in order, store its values through the merged
array's kind, then `apply_offset` adds the mesh's vertex offset in place
(read-modify-write through the typed array), skipped when the offset is 0. -/
def mergedIndexData (meshes : List MergeMesh) (offsets : List ℚ) (k : Kind)
    (name : String) : List ℚ :=
  meshes.enum.flatMap fun p =>
    match alookup p.2.indexBuffers name with
    | some vals =>
      let off := offsets.getD p.1 0
      vals.map fun v => if off = 0 then coerce k v else coerce k (coerce k v + off)
    | none => []

/-- `Mesh.mergeMeshes` (mesh.js lines 1887-2084), restricted to the outputs
the claims observe (see the section comment). -/
def mergeMeshes (meshes : List MergeMesh) : Except String MergeOut := do
  let st ← mergePass1
    { i := 0, cv := 0, vertexOffsets := [], groups := [], bones := [],
      bonesByIndex := [], indexNames := [] } meshes
  let k := mergeIndexDatatype st.cv
  let ibs := st.indexNames.map fun name =>
    (name, TypedData.mk k (mergedIndexData meshes st.vertexOffsets k name))
  .ok { vertexOffsets := st.vertexOffsets, totalVertices := st.cv,
        groups := st.groups, bones := st.bones, indexBuffers := ibs }

/-! ## Real-valued geometry: computeNormals and computeTangents

These processors divide by vector lengths, so they are modelled over `ℝ`
with `Real.sqrt`.  Buffers are represented by their chunked data. -/

abbrev Vec3R := ℝ × ℝ × ℝ

/-- `vec3.cross`. -/
def vcross (a b : Vec3R) : Vec3R :=
  (a.2.1 * b.2.2 - a.2.2 * b.2.1,
   a.2.2 * b.1 - a.1 * b.2.2,
   a.1 * b.2.1 - a.2.1 * b.1)

/-- `vec3.dot`. -/
def vdot (a b : Vec3R) : ℝ := a.1 * b.1 + a.2.1 * b.2.1 + a.2.2 * b.2.2

/-- Squared length, `x*x + y*y + z*z` as computed by `vec3.normalize`. -/
def sqrLenR (a : Vec3R) : ℝ := a.1 ^ 2 + a.2.1 ^ 2 + a.2.2 ^ 2

/-- `vec3.normalize` (gl-matrix): scale by `1/sqrt(len)` only when the
squared length is positive, otherwise leave the vector untouched. -/
noncomputable def glNormalize (v : Vec3R) : Vec3R :=
  if 0 < sqrLenR v then
    (v.1 / Real.sqrt (sqrLenR v), v.2.1 / Real.sqrt (sqrLenR v),
     v.2.2 / Real.sqrt (sqrLenR v))
  else v

/-- Three sequential in-place accumulations `n1 += t; n2 += t; n3 += t`
through aliasing subarray views (mesh.js lines 1265-1267): when two of the
indices coincide the contributions compound. -/
def accumAt3 (f : ℕ → Vec3R) (t : Vec3R) (i1 i2 i3 : ℕ) : ℕ → Vec3R :=
  let f1 := Function.update f i1 (f i1 + t)
  let f2 := Function.update f1 i2 (f1 i2 + t)
  Function.update f2 i3 (f2 i3 + t)

/-- Group a flat index list into complete triangles.  A trailing partial
triple reads undefined indices in the source; its subarray reads and writes
collapse to NaN temporaries and dropped writes, so it contributes nothing. -/
def chunk3N : List ℕ → List (ℕ × ℕ × ℕ)
  | a :: b :: c :: rest => (a, b, c) :: chunk3N rest
  | _ => []

/-- Reading vertex `i` of a position stream. -/
def rget (verts : List Vec3R) (i : ℕ) : Vec3R := verts.getD i (0, 0, 0)

/-- The raw triangle cross product `cross(v2 - v1, v3 - v1)` (mesh.js lines
1259-1261). -/
def faceCrossAt (verts : List Vec3R) (t : ℕ × ℕ × ℕ) : Vec3R :=
  vcross (rget verts t.2.1 - rget verts t.1) (rget verts t.2.2 - rget verts t.1)

/-- The unit face normal the source accumulates: the cross product is
normalized before accumulation (mesh.js line 1262). -/
noncomputable def faceNormalAt (verts : List Vec3R) (t : ℕ × ℕ × ℕ) : Vec3R :=
  glNormalize (faceCrossAt verts t)

/-- The accumulation loop of `Mesh.prototype.computeNormals` (mesh.js lines
1232-1268) over a list of triangles: each triangle adds its (normalized) face
normal into its three corner accumulators in sequence. -/
noncomputable def normalsAccum (verts : List Vec3R) (triples : List (ℕ × ℕ × ℕ)) :
    ℕ → Vec3R :=
  triples.foldl (fun f t => accumAt3 f (faceNormalAt verts t) t.1 t.2.1 t.2.2)
    fun _ => (0 : Vec3R)

/-- The disjoint triples `(0,1,2),(3,4,5),...` the unindexed path walks. -/
def seqTriples (n : ℕ) : List (ℕ × ℕ × ℕ) :=
  (List.range (n / 3)).map fun k => (3 * k, 3 * k + 1, 3 * k + 2)

/-- `Mesh.prototype.computeNormals` data computation (mesh.js lines
1210-1288): accumulate per-triangle unit face normals, then renormalize every
vertex normal — the renormalization pass runs only when a triangle index
buffer is present (line 1271 `if(triangles)`). -/
noncomputable def computeNormalsCore (verts : List Vec3R) (tris : Option (List ℕ)) :
    List Vec3R :=
  match tris with
  | some ts =>
    let acc := normalsAccum verts (chunk3N ts)
    (List.range verts.length).map fun i => glNormalize (acc i)
  | none =>
    let acc := normalsAccum verts (seqTriples verts.length)
    (List.range verts.length).map acc

/-- How many of the triangle's three corners are vertex `i`. -/
def triCount (i : ℕ) (t : ℕ × ℕ × ℕ) : ℕ :=
  (if i = t.1 then 1 else 0) + (if i = t.2.1 then 1 else 0) + (if i = t.2.2 then 1 else 0)

/-- The claim's description of `computeNormals`, taken verbatim from the spec
sentence: accumulate into each of a triangle's three vertex-normal
accumulators the NON-normalized cross product of the two edge vectors (so
larger triangles contribute proportionally larger vectors), then renormalize
every vertex normal. -/
noncomputable def computeNormalsClaim (verts : List Vec3R) (tris : Option (List ℕ)) :
    List Vec3R :=
  let triples := match tris with
    | some ts => chunk3N ts
    | none => seqTriples verts.length
  (List.range verts.length).map fun i =>
    glNormalize ((triples.map fun t => triCount i t • faceCrossAt verts t).sum)

/-- The amended description: accumulate the NORMALIZED cross product (the
unit face normal, so every triangle contributes with equal weight regardless
of area), then renormalize every vertex normal. -/
noncomputable def computeNormalsAmended (verts : List Vec3R) (tris : Option (List ℕ)) :
    List Vec3R :=
  let triples := match tris with
    | some ts => chunk3N ts
    | none => seqTriples verts.length
  (List.range verts.length).map fun i =>
    glNormalize ((triples.map fun t => triCount i t • faceNormalAt verts t).sum)

/-- Mesh state for the real-valued geometry processors: the data of the
buffers they touch, chunked per element. -/
structure MeshG where
  vertices : Option (List Vec3R)
  normals : Option (List Vec3R)
  coords : Option (List (ℝ × ℝ))
  tangents : Option (List (ℝ × ℝ × ℝ × ℝ))
  triangles : Option (List ℕ)

/-- `Mesh.prototype.computeNormals` (mesh.js lines 1210-1288) at mesh level:
the returned pair is the mesh state after the call and the `console.error`
diagnostic, if one was printed (in which case the method returned early and
created nothing). -/
noncomputable def MeshG.computeNormals (m : MeshG) : MeshG × Option String :=
  match m.vertices with
  | none => (m, some "Cannot compute normals of a mesh without vertices")
  | some vs => ({ m with normals := some (computeNormalsCore vs m.triangles) }, none)

/-- The per-triangle tangent/bitangent accumulation step of
`Mesh.prototype.computeTangents` (mesh.js lines 1334-1377). -/
noncomputable def tangentsStep (verts : List Vec3R) (uvs : List (ℝ × ℝ))
    (tt : (ℕ → Vec3R) × (ℕ → Vec3R)) (t : ℕ × ℕ × ℕ) : (ℕ → Vec3R) × (ℕ → Vec3R) :=
  let v1 := rget verts t.1
  let v2 := rget verts t.2.1
  let v3 := rget verts t.2.2
  let w1 := uvs.getD t.1 (0, 0)
  let w2 := uvs.getD t.2.1 (0, 0)
  let w3 := uvs.getD t.2.2 (0, 0)
  let x1 := v2.1 - v1.1
  let x2 := v3.1 - v1.1
  let y1 := v2.2.1 - v1.2.1
  let y2 := v3.2.1 - v1.2.1
  let z1 := v2.2.2 - v1.2.2
  let z2 := v3.2.2 - v1.2.2
  let s1 := w2.1 - w1.1
  let s2 := w3.1 - w1.1
  let t1 := w2.2 - w1.2
  let t2 := w3.2 - w1.2
  let den := s1 * t2 - s2 * t1
  let r : ℝ := if |den| < 1 / 1000000000 then 0 else 1 / den
  let sdir : Vec3R := ((t2 * x1 - t1 * x2) * r, (t2 * y1 - t1 * y2) * r, (t2 * z1 - t1 * z2) * r)
  let tdir : Vec3R := ((s1 * x2 - s2 * x1) * r, (s1 * y2 - s2 * y1) * r, (s1 * z2 - s2 * z1) * r)
  (accumAt3 tt.1 sdir t.1 t.2.1 t.2.2, accumAt3 tt.2 tdir t.1 t.2.1 t.2.2)

/-- The data computation of `Mesh.prototype.computeTangents` (mesh.js lines
1320-1393): accumulate `tan1`/`tan2`, then per vertex Gram-Schmidt
orthogonalize against the normal, normalize, and append the handedness
sign. -/
noncomputable def computeTangentsCore (verts normals : List Vec3R)
    (uvs : List (ℝ × ℝ)) (tris : List ℕ) : List (ℝ × ℝ × ℝ × ℝ) :=
  let acc := (chunk3N tris).foldl (tangentsStep verts uvs)
    (fun _ => (0 : Vec3R), fun _ => (0 : Vec3R))
  (List.range verts.length).map fun a =>
    let nrm := rget normals a
    let t := acc.1 a
    let temp := glNormalize (t - vdot nrm t • nrm)
    let w : ℝ := if vdot (vcross nrm t) (acc.2 a) < 0 then -1 else 1
    (temp.1, temp.2.1, temp.2.2, w)

/-- `Mesh.prototype.computeTangents` (mesh.js lines 1295-1394) at mesh level,
with its four precondition diagnostics. -/
noncomputable def MeshG.computeTangents (m : MeshG) : MeshG × Option String :=
  match m.vertices with
  | none => (m, some "Cannot compute tangents of a mesh without vertices")
  | some vs =>
    match m.normals with
    | none => (m, some "Cannot compute tangents of a mesh without normals")
    | some ns =>
      match m.coords with
      | none => (m, some "Cannot compute tangents of a mesh without uvs")
      | some cs =>
        match m.triangles with
        | none => (m, some "Cannot compute tangents of a mesh without indices")
        | some ts =>
          ({ m with tangents := some (computeTangentsCore vs ns cs ts) }, none)

/-! ## Theorems -/

theorem classOfName_className (k : Kind) : classOfName (className k) = k := by
  cases k <;> rfl

theorem map_fixed_eq_self {α : Type} (f : α → α) (l : List α)
    (h : ∀ v ∈ l, f v = v) : l.map f = l := by
  induction l with
  | nil => rfl
  | cons a rest ih =>
    simp only [List.map_cons]
    rw [h a (by simp), ih fun v hv => h v (by simp [hv])]

/-- Claim C4: `setData` with a typed payload strictly longer than the
existing storage throws and leaves the buffer state (storage contents,
length, and metadata) unchanged. -/
theorem C4_setData_longer_payload_fails_unchanged (b : Buffer) (sd d : TypedData)
    (off : ℕ) (hdata : b.data = some sd) (hlen : sd.vals.length < d.vals.length) :
    b.setData d off =
      (b, some "buffer is not big enough, you cannot set data to a smaller buffer") := by
  unfold Buffer.setData
  rw [hdata]
  simp [hlen]

theorem C4_setData_longer_payload_fails_unchanged_witness :
    (Buffer.make GL_ARRAY_BUFFER (some ⟨.float32, [1, 2, 3]⟩) 3).setData
        ⟨.float32, [1, 2, 3, 4]⟩ 0 =
      (Buffer.make GL_ARRAY_BUFFER (some ⟨.float32, [1, 2, 3]⟩) 3,
       some "buffer is not big enough, you cannot set data to a smaller buffer") :=
  C4_setData_longer_payload_fails_unchanged _ _ _ _ rfl (by decide)

theorem glTypeOf_int32_iff (k : Kind) :
    (glTypeOf k = GL_INT ∨ glTypeOf k = GL_UNSIGNED_INT) ↔ (k = .int32 ∨ k = .uint32) := by
  cases k <;> simp [glTypeOf, GL_BYTE, GL_UNSIGNED_BYTE, GL_SHORT, GL_UNSIGNED_SHORT,
    GL_INT, GL_UNSIGNED_INT, GL_FLOAT]

/-- Claim C8: uploading an `ARRAY_BUFFER` buffer whose storage is 32-bit
signed or unsigned integer hands the device the float conversion of the
storage, records device type FLOAT, and warns; every other supported kind
is uploaded as itself without a warning. -/
theorem C8_upload_widens_int32_vertex_buffers (b : Buffer) (d : TypedData)
    (hdata : b.data = some d) :
    (b.target = GL_ARRAY_BUFFER ∧ (d.kind = .int32 ∨ d.kind = .uint32) →
      b.upload = .ok { buffer := { b with glType := some GL_FLOAT }
                       deviceData := { kind := .float32, vals := d.vals.map toFloat32 }
                       warned := true }) ∧
    (¬(b.target = GL_ARRAY_BUFFER ∧ (d.kind = .int32 ∨ d.kind = .uint32)) →
      b.upload = .ok { buffer := { b with glType := some (glTypeOf d.kind) }
                       deviceData := d
                       warned := false }) := by
  constructor
  · intro h
    unfold Buffer.upload
    rw [hdata]
    have hcond : b.target = GL_ARRAY_BUFFER ∧
        (glTypeOf d.kind = GL_INT ∨ glTypeOf d.kind = GL_UNSIGNED_INT) :=
      ⟨h.1, (glTypeOf_int32_iff d.kind).mpr h.2⟩
    simp [hcond]
  · intro h
    unfold Buffer.upload
    rw [hdata]
    have hcond : ¬(b.target = GL_ARRAY_BUFFER ∧
        (glTypeOf d.kind = GL_INT ∨ glTypeOf d.kind = GL_UNSIGNED_INT)) := by
      intro hc
      exact h ⟨hc.1, (glTypeOf_int32_iff d.kind).mp hc.2⟩
    simp [hcond]

theorem C8_upload_widens_int32_vertex_buffers_witness :
    (Buffer.make GL_ARRAY_BUFFER (some ⟨.int32, [7]⟩) 3).upload =
      .ok { buffer := { Buffer.make GL_ARRAY_BUFFER (some ⟨.int32, [7]⟩) 3 with
                        glType := some GL_FLOAT }
            deviceData := { kind := .float32, vals := [7] }
            warned := true } ∧
    (Buffer.make GL_ARRAY_BUFFER (some ⟨.int16, [7]⟩) 3).upload =
      .ok { buffer := { Buffer.make GL_ARRAY_BUFFER (some ⟨.int16, [7]⟩) 3 with
                        glType := some GL_SHORT }
            deviceData := ⟨.int16, [7]⟩
            warned := false } := by
  constructor
  · have h := (C8_upload_widens_int32_vertex_buffers
      (Buffer.make GL_ARRAY_BUFFER (some ⟨.int32, [7]⟩) 3) ⟨.int32, [7]⟩ rfl).1
      ⟨rfl, Or.inl rfl⟩
    simpa [toFloat32] using h
  · have h := (C8_upload_widens_int32_vertex_buffers
      (Buffer.make GL_ARRAY_BUFFER (some ⟨.int16, [7]⟩) 3) ⟨.int16, [7]⟩ rfl).2
      (by decide)
    simpa [glTypeOf, GL_SHORT] using h

/-- Claim C5: `toJSON` followed by `fromJSON` reproduces the buffer's
stride (spacing), attribute name, numeric kind, and storage contents, for
every supported numeric kind.  The hypotheses record two invariants every
constructor-made buffer satisfies: stored values are fixed points of the
kind's storage conversion, and the spacing is nonzero (the constructor
coerces a falsy spacing to 3). -/
theorem C5_buffer_json_roundtrip (b base : Buffer) (k : Kind) (vals : List ℚ)
    (j : BufferJSON) (hdata : b.data = some ⟨k, vals⟩)
    (hfix : ∀ v ∈ vals, coerce k v = v) (hsp : b.spacing ≠ 0)
    (hj : b.toJSON = some j) :
    (base.fromJSON j).data = some ⟨k, vals⟩ ∧
    (base.fromJSON j).spacing = b.spacing ∧
    (base.fromJSON j).attrib = b.attrib ∧
    (base.fromJSON j).target = b.target := by
  unfold Buffer.toJSON at hj
  rw [hdata] at hj
  have hjval : j = { data_type := className k, data := vals, target := b.target,
                     attrib := b.attrib, spacing := b.spacing } := by
    cases hj
    rfl
  subst hjval
  refine ⟨?_, ?_, ?_, ?_⟩ <;>
    simp [Buffer.fromJSON, classOfName_className, hsp,
      map_fixed_eq_self (coerce k) vals hfix]

theorem C5_buffer_json_roundtrip_witness :
    ((Buffer.make GL_ARRAY_BUFFER none 2).fromJSON
        ((Buffer.make GL_ARRAY_BUFFER (some ⟨.int8, [5, -3]⟩) 2).toJSON.getD
          { data_type := "", data := [], target := 0, attrib := none, spacing := 0 })).data =
      some ⟨.int8, [5, -3]⟩ ∧
    ((Buffer.make GL_ARRAY_BUFFER none 2).fromJSON
        ((Buffer.make GL_ARRAY_BUFFER (some ⟨.int8, [5, -3]⟩) 2).toJSON.getD
          { data_type := "", data := [], target := 0, attrib := none, spacing := 0 })).spacing =
      (Buffer.make GL_ARRAY_BUFFER (some ⟨.int8, [5, -3]⟩) 2).spacing := by
  have h := C5_buffer_json_roundtrip
    (Buffer.make GL_ARRAY_BUFFER (some ⟨.int8, [5, -3]⟩) 2)
    (Buffer.make GL_ARRAY_BUFFER none 2) .int8 [5, -3]
    ((Buffer.make GL_ARRAY_BUFFER (some ⟨.int8, [5, -3]⟩) 2).toJSON.getD
      { data_type := "", data := [], target := 0, attrib := none, spacing := 0 })
    rfl (by decide) (by decide) rfl
  exact ⟨h.1, h.2.1⟩

theorem alookup_aset_self {α : Type} (l : List (String × α)) (k : String) (v : α) :
    alookup (aset l k v) k = some v := by
  unfold aset
  by_cases h : (l.find? fun p => p.1 = k).isSome
  · simp only [h, if_true]
    induction l with
    | nil => simp at h
    | cons p rest ih =>
      by_cases hp : p.1 = k
      · simp [alookup, List.find?_cons_of_pos, hp]
      · simp only [List.map_cons, if_neg hp]
        have h2 : (rest.find? fun p => p.1 = k).isSome := by
          simpa [List.find?_cons_of_neg, hp] using h
        simpa [alookup, List.find?_cons_of_neg, hp] using ih h2
  · simp only [h, if_false]
    induction l with
    | nil => simp [alookup]
    | cons p rest ih =>
      have hp : ¬(p.1 = k) := by
        intro hk
        simp [List.find?_cons_of_pos, hk] at h
      have h2 : ¬(rest.find? fun p => p.1 = k).isSome := by
        simpa [List.find?_cons_of_neg, hp] using h
      simpa [alookup, List.find?_cons_of_neg, hp] using ih h2

theorem alookup_aset_ne {α : Type} (l : List (String × α)) (k k2 : String) (v : α)
    (h : k2 ≠ k) : alookup (aset l k2 v) k = alookup l k := by
  unfold aset
  by_cases hf : (l.find? fun p => p.1 = k2).isSome
  · simp only [hf, if_true]
    induction l with
    | nil => rfl
    | cons p rest ih =>
      by_cases hp : p.1 = k2
      · have hpk : ¬(p.1 = k) := by
          rw [hp]
          exact h
        have hk2k : ¬(k2 = k) := h
        simp only [List.map_cons, if_pos hp]
        by_cases hr : (rest.find? fun p => p.1 = k2).isSome
        · simpa [alookup, List.find?_cons_of_neg, hpk, hk2k] using ih hr
        · -- the head was the only match: the mapped tail equals the tail
          have : (rest.map fun p => if p.1 = k2 then (k2, v) else p) = rest := by
            apply map_fixed_eq_self
            intro q hq
            have : ¬(q.1 = k2) := by
              intro hq2
              exact hr (List.find?_isSome.mpr ⟨q, hq, by simp [hq2]⟩)
            simp [this]
          simp [alookup, List.find?_cons_of_neg, hpk, hk2k, this]
      · simp only [List.map_cons, if_neg hp]
        have hr : (rest.find? fun p => p.1 = k2).isSome := by
          simpa [List.find?_cons_of_neg, hp] using hf
        by_cases hpk : p.1 = k
        · simp [alookup, List.find?_cons_of_pos, hpk]
        · simpa [alookup, List.find?_cons_of_neg, hpk] using ih hr
  · simp only [hf, if_false]
    induction l with
    | nil =>
      simp only [List.nil_append, alookup, List.find?]
      simp [h]
    | cons p rest ih =>
      have hr : ¬(rest.find? fun p => p.1 = k2).isSome := by
        intro hx
        rcases List.find?_isSome.mp hx with ⟨q, hq, hq2⟩
        exact hf (List.find?_isSome.mpr ⟨q, by simp [hq], hq2⟩)
      by_cases hpk : p.1 = k
      · simp [alookup, List.find?_cons_of_pos, hpk]
      · simpa [alookup, List.find?_cons_of_neg, hpk] using ih hr

/-- Claim C7: with the vertex count defined by the "vertices" buffer, both
`addBuffers` and `createIndexBuffer` select Uint16 index storage exactly for
counts up to 65536, and Uint32 above. -/
theorem C7_index_width_from_vertex_count (m : MeshQ) (vb : Buffer) (vd : TypedData)
    (n : ℕ) (name : String) (vals : List ℚ)
    (hvb : alookup m.vertexBuffers "vertices" = some vb)
    (hvd : vb.data = some vd) (hn : vd.vals.length = 3 * n) :
    (∃ m2, m.addBuffers [] [(name, .plain vals)] = .ok m2 ∧
      ∃ buf, alookup m2.indexBuffers name = some buf ∧
        buf.data = some ⟨if n ≤ 65536 then Kind.uint16 else Kind.uint32,
          vals.map (coerce (if n ≤ 65536 then Kind.uint16 else Kind.uint32))⟩) ∧
    (∃ m2 buf, m.createIndexBuffer name (.plain vals) = .ok (m2, buf) ∧
      buf.data = some ⟨if n ≤ 65536 then Kind.uint16 else Kind.uint32,
        vals.map (coerce (if n ≤ 65536 then Kind.uint16 else Kind.uint32))⟩) := by
  have hnum : (vd.vals.length : ℚ) / 3 = (n : ℚ) := by
    rw [hn]
    push_cast
    ring
  have hkind : meshIndexDatatype ((vd.vals.length : ℚ) / 3) =
      (if n ≤ 65536 then Kind.uint16 else Kind.uint32) := by
    rw [hnum]
    unfold meshIndexDatatype
    by_cases hle : n ≤ 65536
    · have : ¬((n : ℚ) > 256 * 256) := by
        norm_num
        exact_mod_cast hle
      simp [this, hle]
    · have : (n : ℚ) > 256 * 256 := by
        have h2 : (65536 : ℕ) < n := by omega
        norm_num
        exact_mod_cast h2
      simp [this, hle]
  set K := (if n ≤ 65536 then Kind.uint16 else Kind.uint32) with hK
  set newbuf := Buffer.make GL_ELEMENT_ARRAY_BUFFER (some ⟨K, vals.map (coerce K)⟩) 0
    with hnewbuf
  have hcib : m.createIndexBuffer name (.plain vals) =
      .ok ({ m with indexBuffers := aset m.indexBuffers name newbuf }, newbuf) := by
    unfold MeshQ.createIndexBuffer
    rw [hvb]
    simp only [hvd, hkind, hnewbuf]
  have haddB : m.addBuffers [] [(name, .plain vals)] =
      .ok { m with indexBuffers := aset m.indexBuffers name newbuf } := by
    unfold MeshQ.addBuffers
    rw [hvb]
    simp only [hvd, addVertexList, addIndexList, MeshQ.createIndexBuffer, hkind, hnewbuf,
      bind, Except.bind, pure]
  constructor
  · exact ⟨_, haddB, newbuf, alookup_aset_self _ _ _, rfl⟩
  · exact ⟨_, newbuf, hcib, rfl⟩

theorem C7_index_width_from_vertex_count_witness :
    (∃ m2, (MeshQ.mk [("vertices",
        Buffer.make GL_ARRAY_BUFFER (some ⟨.float32, [0, 0, 0]⟩) 3)] []).addBuffers []
          [("triangles", .plain [0, 0, 0])] = .ok m2 ∧
      ∃ buf, alookup m2.indexBuffers "triangles" = some buf ∧
        buf.data = some ⟨if 1 ≤ 65536 then Kind.uint16 else Kind.uint32,
          [(0 : ℚ), 0, 0].map (coerce (if 1 ≤ 65536 then Kind.uint16 else Kind.uint32))⟩) ∧
    (∃ m2 buf, (MeshQ.mk [("vertices",
        Buffer.make GL_ARRAY_BUFFER (some ⟨.float32, [0, 0, 0]⟩) 3)] []).createIndexBuffer
          "triangles" (.plain [0, 0, 0]) = .ok (m2, buf) ∧
      buf.data = some ⟨if 1 ≤ 65536 then Kind.uint16 else Kind.uint32,
        [(0 : ℚ), 0, 0].map (coerce (if 1 ≤ 65536 then Kind.uint16 else Kind.uint32))⟩) :=
  C7_index_width_from_vertex_count
    (MeshQ.mk [("vertices", Buffer.make GL_ARRAY_BUFFER (some ⟨.float32, [0, 0, 0]⟩) 3)] [])
    (Buffer.make GL_ARRAY_BUFFER (some ⟨.float32, [0, 0, 0]⟩) 3)
    ⟨.float32, [0, 0, 0]⟩ 1 "triangles" [0, 0, 0] rfl rfl (by decide)

/-- Claim C10: `mergeMeshes` selects Uint16 storage for every merged index
buffer exactly when the total vertex count over all source meshes is strictly
below 65536, and Uint32 otherwise — in particular Uint32 at a total of
exactly 65536, unlike the at-most-65536 rule `addBuffers`/`createIndexBuffer`
apply (`meshIndexDatatype`), which still yields Uint16 there. -/
theorem C10_merge_index_width (meshes : List MergeMesh) (out : MergeOut)
    (h : mergeMeshes meshes = .ok out) :
    (∀ p ∈ out.indexBuffers,
      (Prod.snd p).kind = Kind.uint16 ↔ out.totalVertices < 65536) ∧
    (out.totalVertices = 65536 → ∀ p ∈ out.indexBuffers,
      (Prod.snd p).kind = Kind.uint32) ∧
    meshIndexDatatype 65536 = Kind.uint16 ∧
    mergeIndexDatatype 65536 = Kind.uint32 := by
  have hedge1 : meshIndexDatatype 65536 = Kind.uint16 := by
    norm_num [meshIndexDatatype]
  have hedge2 : mergeIndexDatatype 65536 = Kind.uint32 := by
    norm_num [mergeIndexDatatype]
  unfold mergeMeshes at h
  cases hp : mergePass1
      { i := 0, cv := 0, vertexOffsets := [], groups := [], bones := [],
        bonesByIndex := [], indexNames := [] } meshes with
  | error e =>
    rw [hp] at h
    simp [bind, Except.bind] at h
  | ok st =>
    rw [hp] at h
    simp only [bind, Except.bind] at h
    have hout : out.totalVertices = st.cv ∧ out.indexBuffers = st.indexNames.map
        fun name => (name, TypedData.mk (mergeIndexDatatype st.cv)
          (mergedIndexData meshes st.vertexOffsets (mergeIndexDatatype st.cv) name)) := by
      cases h
      exact ⟨rfl, rfl⟩
    have hkind : ∀ p ∈ out.indexBuffers, (Prod.snd p).kind = mergeIndexDatatype st.cv := by
      intro p hmem
      rw [hout.2] at hmem
      rcases List.mem_map.mp hmem with ⟨name, _, rfl⟩
      rfl
    refine ⟨?_, ?_, hedge1, hedge2⟩
    · intro p hmem
      rw [hkind p hmem, hout.1]
      unfold mergeIndexDatatype
      by_cases hcv : st.cv < 256 * 256
      · simpa [hcv] using by norm_num at hcv ⊢; exact hcv
      · simp only [hcv, if_false]
        constructor
        · intro hk
          cases hk
        · intro hlt
          exact absurd (by norm_num; exact hlt) hcv
    · intro h65 p hmem
      rw [hkind p hmem]
      rw [hout.1] at h65
      rw [h65]
      exact hedge2

theorem C10_merge_index_width_witness :
    (∀ p ∈ (MergeOut.mk [0] 1 [MergeGroup.mk "mesh_0" 0 1 ""] []
        [("triangles", TypedData.mk Kind.uint16 [0, 0, 0])]).indexBuffers,
      (Prod.snd p).kind = Kind.uint16 ↔
        (MergeOut.mk [0] 1 [MergeGroup.mk "mesh_0" 0 1 ""] []
          [("triangles", TypedData.mk Kind.uint16 [0, 0, 0])]).totalVertices < 65536) ∧
    ((MergeOut.mk [0] 1 [MergeGroup.mk "mesh_0" 0 1 ""] []
        [("triangles", TypedData.mk Kind.uint16 [0, 0, 0])]).totalVertices = 65536 →
      ∀ p ∈ (MergeOut.mk [0] 1 [MergeGroup.mk "mesh_0" 0 1 ""] []
          [("triangles", TypedData.mk Kind.uint16 [0, 0, 0])]).indexBuffers,
        (Prod.snd p).kind = Kind.uint32) ∧
    meshIndexDatatype 65536 = Kind.uint16 ∧
    mergeIndexDatatype 65536 = Kind.uint32 :=
  C10_merge_index_width
    [MergeMesh.mk [("vertices", [0, 0, 0])] [("triangles", [0, 0, 0])] none]
    (MergeOut.mk [0] 1 [MergeGroup.mk "mesh_0" 0 1 ""] []
      [("triangles", TypedData.mk Kind.uint16 [0, 0, 0])])
    (by
      unfold mergeMeshes mergePass1 mergePass1
      norm_num [alookup, aset, List.find?, addBonesList, mergedIndexData,
        mergeIndexDatatype, mergeStepState, bind, Except.bind, pure, Except.pure,
        List.enum, coerce, truncQ, wrapU]
      rfl)

/-- Claim C6 counterexample: a vertex array whose reduced max has an
*infinite* (but not NaN) component.  The claim demands a degenerate
zero-sized box at the origin plus a diagnostic; the code's `isNaN`-only check
does not fire, no diagnostic is raised, and the resulting box is not
degenerate (its center x is still infinite). -/
theorem C6_bbox_infinite_component_counterexample :
    reduceMinMax [((.inf : JSNum), .fin 0, .fin 0), (.fin 1, .fin 1, .fin 1)] none =
      some ((.fin 1, .fin 0, .fin 0), (.inf, .fin 1, .fin 1)) ∧
    computeBoundingBox [((.inf : JSNum), .fin 0, .fin 0), (.fin 1, .fin 1, .fin 1)] none =
      some ({ center := (.inf, .fin (1 / 2), .fin (1 / 2))
              halfsize := (.nan, .fin (1 / 2), .fin (1 / 2))
              bmin := (.nan, .fin 0, .fin 0)
              bmax := (.nan, .fin 1, .fin 1) }, false) ∧
    (JSNum.inf ≠ .fin 0 ∧ (false : Bool) ≠ true) := by
  have hred : reduceMinMax [((.inf : JSNum), .fin 0, .fin 0), (.fin 1, .fin 1, .fin 1)] none =
      some ((.fin 1, .fin 0, .fin 0), (.inf, .fin 1, .fin 1)) := by
    norm_num [reduceMinMax, bboxStep, vget, jsMin3, jsMax3, jsMin, jsMax, List.range']
  refine ⟨hred, ?_, by simp, by simp⟩
  unfold computeBoundingBox
  rw [hred]
  norm_num [anyNaN3, JSNum.isNaN, zero3J, jsHalf3, jsAdd3, jsSub3, jsHalf, jsAdd,
    jsSub, jsNeg, setCenterHalfsize]

/-- Claim C6 (amended): only NaN components of the reduced min/max trigger
the reset — when one is present the box is reset to the degenerate zero-sized
box at the origin and the diagnostic fires; when no component is NaN (even if
some are infinite) no reset happens and no diagnostic is raised. -/
theorem C6_bbox_nan_reset (vs : List Vec3J) (mask : Option (List Bool))
    (mn mx : Vec3J) (b : BBoxJ) (w : Bool)
    (hred : reduceMinMax vs mask = some (mn, mx))
    (hbb : computeBoundingBox vs mask = some (b, w)) :
    ((anyNaN3 mn || anyNaN3 mx) = true →
      b.center = zero3J ∧ b.halfsize = zero3J ∧ b.bmin = zero3J ∧ b.bmax = zero3J ∧
        w = true) ∧
    ((anyNaN3 mn || anyNaN3 mx) = false → w = false) := by
  unfold computeBoundingBox at hbb
  rw [hred] at hbb
  have hzc : jsHalf3 (jsAdd3 zero3J zero3J) = zero3J := by
    norm_num [zero3J, jsHalf3, jsAdd3, jsHalf, jsAdd]
  have hzh : jsSub3 zero3J zero3J = zero3J := by
    norm_num [zero3J, jsSub3, jsSub, jsAdd, jsNeg]
  have hzb : setCenterHalfsize zero3J zero3J =
      { center := zero3J, halfsize := zero3J, bmin := zero3J, bmax := zero3J } := by
    norm_num [setCenterHalfsize, zero3J, jsSub3, jsAdd3, jsSub, jsAdd, jsNeg]
  constructor
  · intro hnan
    simp only [hnan, if_true, hzc, hzh, hzb, Option.some.injEq, Prod.mk.injEq] at hbb
    obtain ⟨hb, hw⟩ := hbb
    rw [← hb, ← hw]
    exact ⟨rfl, rfl, rfl, rfl, rfl⟩
  · intro hnn
    simp only [hnn, Bool.false_eq_true, if_false, Option.some.injEq, Prod.mk.injEq] at hbb
    exact hbb.2.symm

theorem C6_bbox_nan_reset_witness :
    ((anyNaN3 ((.nan : JSNum), .fin 0, .fin 0) ||
        anyNaN3 ((.nan : JSNum), .fin 0, .fin 0)) = true →
      ({ center := zero3J, halfsize := zero3J, bmin := zero3J,
         bmax := zero3J } : BBoxJ).center = zero3J ∧
      ({ center := zero3J, halfsize := zero3J, bmin := zero3J,
         bmax := zero3J } : BBoxJ).halfsize = zero3J ∧
      ({ center := zero3J, halfsize := zero3J, bmin := zero3J,
         bmax := zero3J } : BBoxJ).bmin = zero3J ∧
      ({ center := zero3J, halfsize := zero3J, bmin := zero3J,
         bmax := zero3J } : BBoxJ).bmax = zero3J ∧ (true : Bool) = true) ∧
    ((anyNaN3 ((.nan : JSNum), .fin 0, .fin 0) ||
        anyNaN3 ((.nan : JSNum), .fin 0, .fin 0)) = false → (true : Bool) = false) := by
  have hred : reduceMinMax [((.nan : JSNum), .fin 0, .fin 0)] none =
      some (((.nan : JSNum), .fin 0, .fin 0), ((.nan : JSNum), .fin 0, .fin 0)) := by
    simp [reduceMinMax, bboxStep, vget, jsMin3, jsMax3, jsMin, jsMax, List.range']
  have hbb : computeBoundingBox [((.nan : JSNum), .fin 0, .fin 0)] none =
      some ({ center := zero3J, halfsize := zero3J, bmin := zero3J,
              bmax := zero3J }, true) := by
    unfold computeBoundingBox
    rw [hred]
    norm_num [anyNaN3, JSNum.isNaN, zero3J, jsHalf3, jsAdd3, jsSub3, jsHalf, jsAdd,
      jsSub, jsNeg, setCenterHalfsize]
  exact C6_bbox_nan_reset [((.nan : JSNum), .fin 0, .fin 0)] none
    ((.nan : JSNum), .fin 0, .fin 0) ((.nan : JSNum), .fin 0, .fin 0)
    { center := zero3J, halfsize := zero3J, bmin := zero3J, bmax := zero3J } true
    hred hbb

theorem addBonesList_fst_prefix : ∀ (bs bones : List String)
    (byIdx : List (String × ℕ)), ∃ ex, (addBonesList bones byIdx bs).1 = bones ++ ex
  | [], bones, byIdx => ⟨[], by simp [addBonesList]⟩
  | b :: rest, bones, byIdx => by
    unfold addBonesList
    by_cases h : alookup byIdx b = none ∨ alookup byIdx b = some 0
    · simp only [h, if_true]
      obtain ⟨ex, hex⟩ := addBonesList_fst_prefix rest (bones ++ [b])
        (aset byIdx b bones.length)
      exact ⟨[b] ++ ex, by rw [hex]; simp⟩
    · simp only [h, if_false]
      exact addBonesList_fst_prefix rest bones byIdx

theorem addBonesList_fst_ne_nil (bs bones : List String) (byIdx : List (String × ℕ))
    (h : bones ≠ [] ∨ (byIdx = [] ∧ bs ≠ [])) : (addBonesList bones byIdx bs).1 ≠ [] := by
  rcases h with h | ⟨hidx, hbs⟩
  · obtain ⟨ex, hex⟩ := addBonesList_fst_prefix bs bones byIdx
    rw [hex]
    intro hcontra
    exact h (List.append_eq_nil.mp hcontra).1
  · cases bs with
    | nil => exact absurd rfl hbs
    | cons b rest =>
      unfold addBonesList
      have hcond : alookup byIdx b = none ∨ alookup byIdx b = some 0 := by
        rw [hidx]
        exact Or.inl rfl
      simp only [hcond, if_true]
      obtain ⟨ex, hex⟩ := addBonesList_fst_prefix rest (bones ++ [b])
        (aset byIdx b bones.length)
      rw [hex]
      simp

theorem addBonesList_fst_ne_nil_iff (bs bones : List String) (byIdx : List (String × ℕ))
    (hinv : bones = [] → byIdx = []) :
    (addBonesList bones byIdx bs).1 ≠ [] ↔ (bones ≠ [] ∨ bs ≠ []) := by
  constructor
  · intro h
    by_contra hc
    push_neg at hc
    obtain ⟨hb, hbs⟩ := hc
    subst hb hbs
    simp [addBonesList] at h
  · intro h
    by_cases hb : bones = []
    · rcases h with h | h
      · exact absurd hb h
      · exact addBonesList_fst_ne_nil bs bones byIdx (Or.inr ⟨hinv hb, h⟩)
    · exact addBonesList_fst_ne_nil bs bones byIdx (Or.inl hb)

theorem addBonesList_inv (bs bones : List String) (byIdx : List (String × ℕ))
    (hinv : bones = [] → byIdx = []) :
    (addBonesList bones byIdx bs).1 = [] → (addBonesList bones byIdx bs).2 = [] := by
  intro h
  by_cases hbs : bs = []
  · subst hbs
    simp only [addBonesList] at h ⊢
    exact hinv h
  · exfalso
    by_cases hb : bones = []
    · exact addBonesList_fst_ne_nil bs bones byIdx (Or.inr ⟨hinv hb, hbs⟩) h
    · exact addBonesList_fst_ne_nil bs bones byIdx (Or.inl hb) h

theorem mergePass1_error_iff : ∀ (ms : List MergeMesh) (st : MergeState),
    (∀ mm ∈ ms, (alookup mm.vertexBuffers "vertices").isSome = true) →
    (∀ mm ∈ ms, mm.bones ≠ none → (alookup mm.vertexBuffers "bone_indices").isSome = true) →
    (st.bones = [] → st.bonesByIndex = []) →
    ((∃ e, mergePass1 st ms = .error e) ↔
      ∃ j mj, ms.get? j = some mj ∧ mj.bones = none ∧
        (st.bones ≠ [] ∨
          ∃ i mi bs, i < j ∧ ms.get? i = some mi ∧ mi.bones = some bs ∧ bs ≠ []))
  | [], st, _, _, _ => by
    simp [mergePass1]
  | mm :: rest, st, hv, hbi, hinv => by
    obtain ⟨vd, hvd⟩ := Option.isSome_iff_exists.mp (hv mm (by simp))
    have hvrest : ∀ m2 ∈ rest, (alookup m2.vertexBuffers "vertices").isSome = true :=
      fun m2 hm2 => hv m2 (by simp [hm2])
    have hbirest : ∀ m2 ∈ rest, m2.bones ≠ none →
        (alookup m2.vertexBuffers "bone_indices").isSome = true :=
      fun m2 hm2 => hbi m2 (by simp [hm2])
    cases hb : mm.bones with
    | some bs =>
      obtain ⟨bi, hbival⟩ := Option.isSome_iff_exists.mp
        (hbi mm (by simp) (by simp [hb]))
      have hstep : mergePass1 st (mm :: rest) =
          mergePass1 (mergeStepState st mm vd
            (addBonesList st.bones st.bonesByIndex bs).1
            (addBonesList st.bones st.bonesByIndex bs).2) rest := by
        conv_lhs => rw [mergePass1]
        rw [hvd, hb, hbival]
      have hinv2 : (mergeStepState st mm vd
          (addBonesList st.bones st.bonesByIndex bs).1
          (addBonesList st.bones st.bonesByIndex bs).2).bones = [] →
          (mergeStepState st mm vd
            (addBonesList st.bones st.bonesByIndex bs).1
            (addBonesList st.bones st.bonesByIndex bs).2).bonesByIndex = [] :=
        fun h => addBonesList_inv bs st.bones st.bonesByIndex hinv h
      have ih := mergePass1_error_iff rest
        (mergeStepState st mm vd (addBonesList st.bones st.bonesByIndex bs).1
          (addBonesList st.bones st.bonesByIndex bs).2) hvrest hbirest hinv2
      rw [hstep, ih]
      have hne : (addBonesList st.bones st.bonesByIndex bs).1 ≠ [] ↔
          (st.bones ≠ [] ∨ bs ≠ []) :=
        addBonesList_fst_ne_nil_iff bs st.bones st.bonesByIndex hinv
      constructor
      · rintro ⟨j, mj, hj, hbj, hcase⟩
        refine ⟨j + 1, mj, by simpa using hj, hbj, ?_⟩
        rcases hcase with hnb | ⟨i, mi, bs2, hij, hi, hbi2, hbs2⟩
        · rcases hne.mp hnb with h | h
          · exact Or.inl h
          · exact Or.inr ⟨0, mm, bs, by omega, rfl, hb, h⟩
        · exact Or.inr ⟨i + 1, mi, bs2, by omega, by simpa using hi, hbi2, hbs2⟩
      · rintro ⟨j, mj, hj, hbj, hcase⟩
        cases j with
        | zero =>
          simp only [List.get?_cons_zero, Option.some.injEq] at hj
          rw [← hj] at hbj
          rw [hb] at hbj
          cases hbj
        | succ j2 =>
          simp only [List.get?_cons_succ] at hj
          refine ⟨j2, mj, hj, hbj, ?_⟩
          rcases hcase with hnb | ⟨i, mi, bs2, hij, hi, hbi2, hbs2⟩
          · exact Or.inl (hne.mpr (Or.inl hnb))
          · cases i with
            | zero =>
              simp only [List.get?_cons_zero, Option.some.injEq] at hi
              rw [← hi, hb] at hbi2
              cases hbi2
              exact Or.inl (hne.mpr (Or.inr hbs2))
            | succ i2 =>
              simp only [List.get?_cons_succ] at hi
              exact Or.inr ⟨i2, mi, bs2, by omega, hi, hbi2, hbs2⟩
    | none =>
      by_cases hsb : st.bones = []
      · have hstep : mergePass1 st (mm :: rest) =
            mergePass1 (mergeStepState st mm vd st.bones st.bonesByIndex) rest := by
          conv_lhs => rw [mergePass1]
          rw [hvd, hb]
          simp [hsb]
        have hinv2 : (mergeStepState st mm vd st.bones st.bonesByIndex).bones = [] →
            (mergeStepState st mm vd st.bones st.bonesByIndex).bonesByIndex = [] :=
          fun _ => hinv hsb
        have ih := mergePass1_error_iff rest
          (mergeStepState st mm vd st.bones st.bonesByIndex) hvrest hbirest hinv2
        rw [hstep, ih]
        constructor
        · rintro ⟨j, mj, hj, hbj, hcase⟩
          refine ⟨j + 1, mj, by simpa using hj, hbj, ?_⟩
          rcases hcase with hnb | ⟨i, mi, bs2, hij, hi, hbi2, hbs2⟩
          · exact absurd hsb hnb
          · exact Or.inr ⟨i + 1, mi, bs2, by omega, by simpa using hi, hbi2, hbs2⟩
        · rintro ⟨j, mj, hj, hbj, hcase⟩
          cases j with
          | zero =>
            rcases hcase with hnb | ⟨i, mi, bs2, hij, hi, hbi2, hbs2⟩
            · exact absurd hsb hnb
            · omega
          | succ j2 =>
            simp only [List.get?_cons_succ] at hj
            refine ⟨j2, mj, hj, hbj, ?_⟩
            rcases hcase with hnb | ⟨i, mi, bs2, hij, hi, hbi2, hbs2⟩
            · exact absurd hsb hnb
            · cases i with
              | zero =>
                simp only [List.get?_cons_zero, Option.some.injEq] at hi
                rw [← hi, hb] at hbi2
                cases hbi2
              | succ i2 =>
                simp only [List.get?_cons_succ] at hi
                exact Or.inr ⟨i2, mi, bs2, by omega, hi, hbi2, hbs2⟩
      · have hstep : mergePass1 st (mm :: rest) =
            .error "cannot merge meshes, one contains bones, the other doesnt" := by
          unfold mergePass1
          rw [hvd, hb]
          have : st.bones.length ≠ 0 := by
            intro h
            exact hsb (List.length_eq_zero.mp h)
          simp [this]
        rw [hstep]
        constructor
        · intro _
          exact ⟨0, mm, rfl, hb, Or.inl hsb⟩
        · intro _
          exact ⟨_, rfl⟩

theorem mergeMeshes_error_iff_pass1 (ms : List MergeMesh) :
    (∃ e, mergeMeshes ms = .error e) ↔
    (∃ e, mergePass1
      { i := 0, cv := 0, vertexOffsets := [], groups := [], bones := [],
        bonesByIndex := [], indexNames := [] } ms = .error e) := by
  unfold mergeMeshes
  cases hp : mergePass1
      { i := 0, cv := 0, vertexOffsets := [], groups := [], bones := [],
        bonesByIndex := [], indexNames := [] } ms with
  | error e => simp [bind, Except.bind]
  | ok st => simp [bind, Except.bind]

/-- Claim C3 (amended): provided every source mesh has a "vertices" buffer
and every skinned source mesh has a "bone_indices" buffer, `mergeMeshes`
fails exactly when some mesh *without* a bone list appears *after* a mesh
with a nonempty bone list; a mixed list in which every boneless mesh precedes
the skinned ones merges without error. -/
theorem C3_merge_fails_iff_unskinned_after_skinned (ms : List MergeMesh)
    (hv : ∀ mm ∈ ms, (alookup mm.vertexBuffers "vertices").isSome = true)
    (hbi : ∀ mm ∈ ms, mm.bones ≠ none →
      (alookup mm.vertexBuffers "bone_indices").isSome = true) :
    (∃ e, mergeMeshes ms = .error e) ↔
      ∃ j mj, ms.get? j = some mj ∧ mj.bones = none ∧
        ∃ i mi bs, i < j ∧ ms.get? i = some mi ∧ mi.bones = some bs ∧ bs ≠ [] := by
  rw [mergeMeshes_error_iff_pass1 ms]
  rw [mergePass1_error_iff ms _ hv hbi (fun _ => rfl)]
  constructor
  · rintro ⟨j, mj, hj, hbj, hcase⟩
    rcases hcase with hnb | hex
    · exact absurd rfl hnb
    · exact ⟨j, mj, hj, hbj, hex⟩
  · rintro ⟨j, mj, hj, hbj, hex⟩
    exact ⟨j, mj, hj, hbj, Or.inr hex⟩

/-- Claim C3 counterexample: a mixed list (first mesh unskinned, second mesh
skinned) on which `mergeMeshes` succeeds — the rejection is order-dependent,
not unconditional as the claim states. -/
theorem C3_mixed_merge_succeeds_counterexample :
    (MergeMesh.mk [("vertices", [0, 0, 0])] [] none).bones = none ∧
    (MergeMesh.mk [("vertices", [0, 0, 0]), ("bone_indices", [0, 0, 0, 0])] []
      (some ["bone1"])).bones = some ["bone1"] ∧
    (mergeMeshes [MergeMesh.mk [("vertices", [0, 0, 0])] [] none,
      MergeMesh.mk [("vertices", [0, 0, 0]), ("bone_indices", [0, 0, 0, 0])] []
        (some ["bone1"])]).isOk = true := by
  refine ⟨rfl, rfl, ?_⟩
  have hne : ¬(("vertices" : String) = "bone_indices") := by decide
  unfold mergeMeshes mergePass1 mergePass1 mergePass1
  norm_num [alookup, aset, List.find?, addBonesList, mergeStepState, bind,
    Except.bind, pure, Except.pure, hne]
  rfl

theorem C3_merge_fails_iff_unskinned_after_skinned_witness :
    (∃ e, mergeMeshes [MergeMesh.mk [("vertices", [0, 0, 0]),
        ("bone_indices", [0, 0, 0, 0])] [] (some ["bone1"]),
      MergeMesh.mk [("vertices", [0, 0, 0])] [] none] = .error e) ↔
      ∃ j mj, [MergeMesh.mk [("vertices", [0, 0, 0]),
          ("bone_indices", [0, 0, 0, 0])] [] (some ["bone1"]),
        MergeMesh.mk [("vertices", [0, 0, 0])] [] none].get? j = some mj ∧
        mj.bones = none ∧
        ∃ i mi bs, i < j ∧ [MergeMesh.mk [("vertices", [0, 0, 0]),
            ("bone_indices", [0, 0, 0, 0])] [] (some ["bone1"]),
          MergeMesh.mk [("vertices", [0, 0, 0])] [] none].get? i = some mi ∧
          mi.bones = some bs ∧ bs ≠ [] :=
  C3_merge_fails_iff_unskinned_after_skinned _ (by decide) (by decide)

/-- Claim C9: `computeNormals` and `computeTangents` never touch the
"vertices" (positions) data; and when the "vertices" buffer is absent each
returns early with its descriptive diagnostic, leaving the mesh unchanged
(in particular, without creating its output buffer). -/
theorem C9_processors_preserve_vertices (m : MeshG) :
    m.computeNormals.1.vertices = m.vertices ∧
    m.computeTangents.1.vertices = m.vertices ∧
    (m.vertices = none →
      m.computeNormals = (m, some "Cannot compute normals of a mesh without vertices") ∧
      m.computeTangents = (m, some "Cannot compute tangents of a mesh without vertices")) := by
  refine ⟨?_, ?_, ?_⟩
  · rcases hv : m.vertices with _ | vs <;> simp [MeshG.computeNormals, hv]
  · rcases hv : m.vertices with _ | vs <;>
      rcases hn : m.normals with _ | ns <;>
      rcases hc : m.coords with _ | cs <;>
      rcases ht : m.triangles with _ | ts <;>
      simp [MeshG.computeTangents, hv, hn, hc, ht]
  · intro hv
    constructor <;> simp [MeshG.computeNormals, MeshG.computeTangents, hv]

theorem C9_processors_preserve_vertices_witness :
    (MeshG.mk none none none none none).computeNormals =
      (MeshG.mk none none none none none,
       some "Cannot compute normals of a mesh without vertices") ∧
    (MeshG.mk none none none none none).computeTangents =
      (MeshG.mk none none none none none,
       some "Cannot compute tangents of a mesh without vertices") ∧
    (MeshG.mk (some [((0 : ℝ), 0, 0)]) none none none none).computeNormals.1.vertices =
      some [((0 : ℝ), 0, 0)] :=
  ⟨((C9_processors_preserve_vertices (MeshG.mk none none none none none)).2.2 rfl).1,
   ((C9_processors_preserve_vertices (MeshG.mk none none none none none)).2.2 rfl).2,
   (C9_processors_preserve_vertices
     (MeshG.mk (some [((0 : ℝ), 0, 0)]) none none none none)).1⟩

theorem computeIndices_eval (m : MeshQ) (vb : Buffer) (vd : TypedData)
    (hvb : alookup m.vertexBuffers "vertices" = some vb)
    (hvd : vb.data = some vd) (uq : List Vec3Q) (idx : List ℕ)
    (hst : (computeIndicesLoop
        (((alookup m.vertexBuffers "normals").bind fun b => b.data).map
          fun d => chunk3Q d.vals)
        (((alookup m.vertexBuffers "coords").bind fun b => b.data).map
          fun d => chunk2Q d.vals)
        { uniq := [], newNormals := [], newCoords := [], indices := [], indexer := [] }
        (chunk3Q vd.vals).enum).uniq = uq)
    (hix : (computeIndicesLoop
        (((alookup m.vertexBuffers "normals").bind fun b => b.data).map
          fun d => chunk3Q d.vals)
        (((alookup m.vertexBuffers "coords").bind fun b => b.data).map
          fun d => chunk2Q d.vals)
        { uniq := [], newNormals := [], newCoords := [], indices := [], indexer := [] }
        (chunk3Q vd.vals).enum).indices = idx) :
    ∃ m2, m.computeIndices = .ok m2 ∧
      ((alookup m2.vertexBuffers "vertices").bind fun b => b.data) =
        some ⟨.float32, (flatten3 uq).map toFloat32⟩ ∧
      ((alookup m2.indexBuffers "triangles").bind fun b => b.data) =
        some ⟨meshIndexDatatype ((((flatten3 uq).map toFloat32).length : ℚ) / 3),
          (idx.map fun i => (i : ℚ)).map
            (coerce (meshIndexDatatype ((((flatten3 uq).map toFloat32).length : ℚ) / 3)))⟩ := by
  have hnv : ¬(("normals" : String) = "vertices") := by decide
  have hcv : ¬(("coords" : String) = "vertices") := by decide
  have hcb1 : common_buffers "vertices" =
      some { spacing := 3, attrib := "a_vertex" } := rfl
  have hcb2 : common_buffers "normals" =
      some { spacing := 3, attrib := "a_normal", normalize := true } := rfl
  have hcb3 : common_buffers "coords" =
      some { spacing := 2, attrib := "a_coord" } := rfl
  have h30 : ¬((3 : ℚ) = 0) := by norm_num
  have h20 : ¬((2 : ℚ) = 0) := by norm_num
  unfold MeshQ.computeIndices
  rw [hvb]
  simp only [hvd]
  rcases hN : (alookup m.vertexBuffers "normals").bind fun b => b.data with _ | nd <;>
    rcases hC : (alookup m.vertexBuffers "coords").bind fun b => b.data with _ | cd <;>
    rw [hN, hC] at hst hix <;>
    simp only [hN, hC, Option.map_none, Option.map_some, hst, hix, bind, Except.bind,
      pure, Except.pure, MeshQ.createVertexBuffer, MeshQ.createIndexBuffer,
      hcb1, hcb2, hcb3, alookup_aset_self, alookup_aset_ne _ _ _ _ hnv,
      alookup_aset_ne _ _ _ _ hcv] <;>
    refine ⟨_, rfl, ?_, ?_⟩ <;>
    simp only [alookup_aset_self, alookup_aset_ne _ _ _ _ hnv,
      alookup_aset_ne _ _ _ _ hcv, Option.bind_some, Option.some_bind] <;>
    rfl

theorem computeIndicesLoop_two_same (nO : Option (List Vec3Q))
    (cO : Option (List (ℚ × ℚ))) (v : Vec3Q) :
    (computeIndicesLoop nO cO
      { uniq := [], newNormals := [], newCoords := [], indices := [], indexer := [] }
      [(0, v), (1, v)]).uniq = [v] ∧
    (computeIndicesLoop nO cO
      { uniq := [], newNormals := [], newCoords := [], indices := [], indexer := [] }
      [(0, v), (1, v)]).indices = [0, 0] := by
  have hd : sqrDistQ v v < 1 / 100 := by
    simp [sqrDistQ]
  have hd2 : sqrDistQ v v < (100 : ℚ)⁻¹ := by
    rwa [one_div] at hd
  constructor <;>
    simp [computeIndicesLoop, ilookup, ipush, weldScan, List.findIdx?, hd, hd2]

theorem computeIndicesLoop_two_far (nO : Option (List Vec3Q))
    (cO : Option (List (ℚ × ℚ))) (v w : Vec3Q)
    (hfar : ¬(sqrDistQ w v < 1 / 100)) :
    (computeIndicesLoop nO cO
      { uniq := [], newNormals := [], newCoords := [], indices := [], indexer := [] }
      [(0, v), (1, w)]).uniq = [v, w] := by
  have hfar2 : ¬(sqrDistQ w v < (100 : ℚ)⁻¹) := by
    rwa [← one_div]
  by_cases hkey : toInt32 (w.1 * 1000) = toInt32 (v.1 * 1000)
  · simp [computeIndicesLoop, ilookup, ipush, weldScan, List.findIdx?, hkey, hfar, hfar2]
  · have hkey2 : ¬(toInt32 (v.1 * 1000) = toInt32 (w.1 * 1000)) := fun h => hkey h.symm
    simp [computeIndicesLoop, ilookup, ipush, weldScan, List.findIdx?, hkey2, hfar, hfar2]

/-- Claim C2: `computeIndices` on a mesh whose "vertices" buffer holds
exactly two vertices welds them into one unique output vertex with a
"triangles" index buffer `[0, 0]` when the coordinates are identical, and
keeps two unique output vertices when they differ by at least 0.01 in
squared distance in some coordinate. -/
theorem C2_computeIndices_two_vertices (m : MeshQ) (vb : Buffer) (k : Kind)
    (v w : Vec3Q) (hvb : alookup m.vertexBuffers "vertices" = some vb)
    (hvd : vb.data = some ⟨k, [v.1, v.2.1, v.2.2, w.1, w.2.1, w.2.2]⟩) :
    (v = w →
      ∃ m2, m.computeIndices = .ok m2 ∧
        ((alookup m2.vertexBuffers "vertices").bind fun b => b.data) =
          some ⟨.float32, [v.1, v.2.1, v.2.2]⟩ ∧
        ((alookup m2.indexBuffers "triangles").bind fun b => b.data) =
          some ⟨.uint16, [0, 0]⟩) ∧
    ((1 / 100 ≤ (v.1 - w.1) ^ 2 ∨ 1 / 100 ≤ (v.2.1 - w.2.1) ^ 2 ∨
        1 / 100 ≤ (v.2.2 - w.2.2) ^ 2) →
      ∃ m2, m.computeIndices = .ok m2 ∧
        ((alookup m2.vertexBuffers "vertices").bind fun b => b.data) =
          some ⟨.float32, [v.1, v.2.1, v.2.2, w.1, w.2.1, w.2.2]⟩) := by
  have hchunk : chunk3Q [v.1, v.2.1, v.2.2, w.1, w.2.1, w.2.2] = [v, w] := by
    simp [chunk3Q]
  constructor
  · intro heq
    subst heq
    have hloop := computeIndicesLoop_two_same
      (((alookup m.vertexBuffers "normals").bind fun b => b.data).map
        fun d => chunk3Q d.vals)
      (((alookup m.vertexBuffers "coords").bind fun b => b.data).map
        fun d => chunk2Q d.vals) v
    obtain ⟨m2, hok, hnbd, htbd⟩ :=
      computeIndices_eval m vb ⟨k, [v.1, v.2.1, v.2.2, v.1, v.2.1, v.2.2]⟩ hvb hvd
        [v] [0, 0]
        (by rw [hchunk]; simp only [List.enum]; exact hloop.1)
        (by rw [hchunk]; simp only [List.enum]; exact hloop.2)
    refine ⟨m2, hok, ?_, ?_⟩
    · simpa [flatten3, toFloat32] using hnbd
    · have hkind : meshIndexDatatype
          ((((flatten3 [v]).map toFloat32).length : ℚ) / 3) = .uint16 := by
        norm_num [flatten3, toFloat32, meshIndexDatatype]
      rw [hkind] at htbd
      rw [htbd]
      norm_num [coerce, truncQ, wrapU]
  · intro hsep
    have hfar : ¬(sqrDistQ w v < 1 / 100) := by
      rw [not_lt]
      unfold sqrDistQ
      rcases hsep with h | h | h
      · nlinarith [sq_nonneg (v.2.1 - w.2.1), sq_nonneg (v.2.2 - w.2.2)]
      · nlinarith [sq_nonneg (v.1 - w.1), sq_nonneg (v.2.2 - w.2.2)]
      · nlinarith [sq_nonneg (v.1 - w.1), sq_nonneg (v.2.1 - w.2.1)]
    have hloop := computeIndicesLoop_two_far
      (((alookup m.vertexBuffers "normals").bind fun b => b.data).map
        fun d => chunk3Q d.vals)
      (((alookup m.vertexBuffers "coords").bind fun b => b.data).map
        fun d => chunk2Q d.vals) v w hfar
    obtain ⟨m2, hok, hnbd, _⟩ :=
      computeIndices_eval m vb ⟨k, [v.1, v.2.1, v.2.2, w.1, w.2.1, w.2.2]⟩ hvb hvd
        [v, w]
        (computeIndicesLoop
          (((alookup m.vertexBuffers "normals").bind fun b => b.data).map
            fun d => chunk3Q d.vals)
          (((alookup m.vertexBuffers "coords").bind fun b => b.data).map
            fun d => chunk2Q d.vals)
          { uniq := [], newNormals := [], newCoords := [], indices := [], indexer := [] }
          (chunk3Q [v.1, v.2.1, v.2.2, w.1, w.2.1, w.2.2]).enum).indices
        (by rw [hchunk]; simp only [List.enum]; exact hloop) rfl
    refine ⟨m2, hok, ?_⟩
    simpa [flatten3, toFloat32] using hnbd

theorem C2_computeIndices_two_vertices_witness :
    ((0 : ℚ), (0 : ℚ), (0 : ℚ)) = ((0 : ℚ), (0 : ℚ), (0 : ℚ)) ∧
    (∃ m2, (MeshQ.mk [("vertices",
        Buffer.make GL_ARRAY_BUFFER (some ⟨.float32, [0, 0, 0, 0, 0, 0]⟩) 3)]
        []).computeIndices = .ok m2 ∧
      ((alookup m2.vertexBuffers "vertices").bind fun b => b.data) =
        some ⟨.float32, [0, 0, 0]⟩ ∧
      ((alookup m2.indexBuffers "triangles").bind fun b => b.data) =
        some ⟨.uint16, [0, 0]⟩) ∧
    ((1 : ℚ) / 100 ≤ ((0 : ℚ) - 1) ^ 2 ∧
      ∃ m2, (MeshQ.mk [("vertices",
          Buffer.make GL_ARRAY_BUFFER (some ⟨.float32, [0, 0, 0, 1, 0, 0]⟩) 3)]
          []).computeIndices = .ok m2 ∧
        ((alookup m2.vertexBuffers "vertices").bind fun b => b.data) =
          some ⟨.float32, [0, 0, 0, 1, 0, 0]⟩) := by
  refine ⟨rfl, ?_, by norm_num, ?_⟩
  · exact (C2_computeIndices_two_vertices
      (MeshQ.mk [("vertices",
        Buffer.make GL_ARRAY_BUFFER (some ⟨.float32, [0, 0, 0, 0, 0, 0]⟩) 3)] [])
      (Buffer.make GL_ARRAY_BUFFER (some ⟨.float32, [0, 0, 0, 0, 0, 0]⟩) 3)
      .float32 (0, 0, 0) (0, 0, 0) rfl rfl).1 rfl
  · exact (C2_computeIndices_two_vertices
      (MeshQ.mk [("vertices",
        Buffer.make GL_ARRAY_BUFFER (some ⟨.float32, [0, 0, 0, 1, 0, 0]⟩) 3)] [])
      (Buffer.make GL_ARRAY_BUFFER (some ⟨.float32, [0, 0, 0, 1, 0, 0]⟩) 3)
      .float32 (0, 0, 0) (1, 0, 0) rfl rfl).2 (Or.inl (by norm_num))

theorem update_add_apply (f : ℕ → Vec3R) (j : ℕ) (t : Vec3R) (i : ℕ) :
    Function.update f j (f j + t) i = f i + (if i = j then 1 else 0 : ℕ) • t := by
  by_cases h : i = j
  · subst h
    simp
  · simp [Function.update_apply, h]

theorem accumAt3_apply (f : ℕ → Vec3R) (t : Vec3R) (i1 i2 i3 i : ℕ) :
    accumAt3 f t i1 i2 i3 i = f i + triCount i (i1, i2, i3) • t := by
  unfold accumAt3
  rw [update_add_apply, update_add_apply, update_add_apply]
  simp only [triCount]
  rw [add_nsmul, add_nsmul]
  abel

theorem normalsFold_apply (g : ℕ × ℕ × ℕ → Vec3R) :
    ∀ (triples : List (ℕ × ℕ × ℕ)) (f : ℕ → Vec3R) (i : ℕ),
    (triples.foldl (fun f t => accumAt3 f (g t) t.1 t.2.1 t.2.2) f) i =
      f i + (triples.map fun t => triCount i t • g t).sum
  | [], f, i => by simp
  | t :: rest, f, i => by
    obtain ⟨i1, i2, i3⟩ := t
    simp only [List.foldl_cons, List.map_cons, List.sum_cons]
    rw [normalsFold_apply g rest _ i, accumAt3_apply]
    abel

theorem sqrLenR_nonneg (v : Vec3R) : 0 ≤ sqrLenR v := by
  unfold sqrLenR
  positivity

theorem glNormalize_zero : glNormalize ((0 : ℝ), (0 : ℝ), (0 : ℝ)) = ((0 : ℝ), 0, 0) := by
  simp [glNormalize, sqrLenR]

theorem glNormalize_idem (v : Vec3R) : glNormalize (glNormalize v) = glNormalize v := by
  by_cases h : 0 < sqrLenR v
  · have hs : (0 : ℝ) < Real.sqrt (sqrLenR v) := Real.sqrt_pos.mpr h
    have hL : Real.sqrt (sqrLenR v) ^ 2 = sqrLenR v := Real.sq_sqrt h.le
    have h1 : sqrLenR (v.1 / Real.sqrt (sqrLenR v), v.2.1 / Real.sqrt (sqrLenR v),
        v.2.2 / Real.sqrt (sqrLenR v)) = 1 := by
      unfold sqrLenR at hL ⊢
      rw [div_pow, div_pow, div_pow, div_add_div_same, div_add_div_same, hL]
      exact div_self (by positivity)
    unfold glNormalize
    simp only [h, if_true, h1, Real.sqrt_one, div_one, zero_lt_one, if_true]
  · unfold glNormalize
    simp only [h, if_false]

theorem triCount_seq (i m : ℕ) :
    triCount i (3 * m, 3 * m + 1, 3 * m + 2) = if i / 3 = m then 1 else 0 := by
  unfold triCount
  by_cases h : i / 3 = m
  · have h3 : i = 3 * m ∨ i = 3 * m + 1 ∨ i = 3 * m + 2 := by omega
    rcases h3 with h3 | h3 | h3 <;> subst h3 <;> simp [h]
  · have h1 : ¬(i = 3 * m) := by omega
    have h2 : ¬(i = 3 * m + 1) := by omega
    have h3 : ¬(i = 3 * m + 2) := by omega
    simp [h, h1, h2, h3]

theorem seqTriples_sum (g : ℕ × ℕ × ℕ → Vec3R) (i : ℕ) : ∀ (m : ℕ),
    ((List.range m).map fun k =>
      triCount i (3 * k, 3 * k + 1, 3 * k + 2) • g (3 * k, 3 * k + 1, 3 * k + 2)).sum =
      if i / 3 < m then g (3 * (i / 3), 3 * (i / 3) + 1, 3 * (i / 3) + 2) else 0
  | 0 => by simp
  | m + 1 => by
    rw [List.range_succ, List.map_append, List.sum_append]
    rw [seqTriples_sum g i m]
    simp only [List.map_cons, List.map_nil, List.sum_cons, List.sum_nil, add_zero]
    rw [triCount_seq]
    rcases Nat.lt_trichotomy (i / 3) m with h | h | h
    · have hm : ¬(i / 3 = m) := by omega
      have hlt : i / 3 < m + 1 := by omega
      simp [h, hm, hlt]
    · have hnlt : ¬(i / 3 < m) := by omega
      have hlt : i / 3 < m + 1 := by omega
      subst h
      simp [hnlt, hlt]
    · have hnlt : ¬(i / 3 < m) := by omega
      have hm : ¬(i / 3 = m) := by omega
      have hnlt2 : ¬(i / 3 < m + 1) := by omega
      simp [hnlt, hm, hnlt2]

/-- Claim C1 (amended): for every mesh (indexed or not), `computeNormals`
accumulates into each of a triangle's three vertex-normal accumulators the
NORMALIZED cross product of the two edge vectors — the unit face normal, so
every triangle contributes with the same weight regardless of its area — and
the result equals renormalizing every vertex normal of those sums (the
source runs the final renormalization pass only when an index buffer is
present; without one each accumulator already holds a single unit-or-zero
face normal, which renormalization leaves unchanged). -/
theorem C1_computeNormals_normalized_accumulation (verts : List Vec3R)
    (tris : Option (List ℕ)) :
    computeNormalsCore verts tris = computeNormalsAmended verts tris := by
  cases tris with
  | some ts =>
    unfold computeNormalsCore computeNormalsAmended normalsAccum
    simp only [normalsFold_apply, zero_add]
  | none =>
    unfold computeNormalsCore computeNormalsAmended normalsAccum seqTriples
    have key : ∀ i : ℕ,
        (((List.range (verts.length / 3)).map fun k =>
            (3 * k, 3 * k + 1, 3 * k + 2)).foldl
          (fun f t => accumAt3 f (faceNormalAt verts t) t.1 t.2.1 t.2.2)
          (fun _ => (0 : Vec3R))) i =
        glNormalize ((((List.range (verts.length / 3)).map fun k =>
            (3 * k, 3 * k + 1, 3 * k + 2)).map fun t =>
          triCount i t • faceNormalAt verts t).sum) := by
      intro i
      rw [normalsFold_apply]
      rw [List.map_map]
      have hsum := seqTriples_sum (faceNormalAt verts) i (verts.length / 3)
      simp only [Function.comp_def]
      rw [hsum, zero_add]
      by_cases hlt : i / 3 < verts.length / 3
      · simp only [hlt, if_true]
        exact (glNormalize_idem (faceCrossAt verts
          (3 * (i / 3), 3 * (i / 3) + 1, 3 * (i / 3) + 2))).symm
      · simp only [hlt, if_false]
        exact glNormalize_zero.symm
    rw [funext key]

theorem getD_map_range (f : ℕ → Vec3R) (n : ℕ) (h : 0 < n) (d : Vec3R) :
    (List.map f (List.range n)).getD 0 d = f 0 := by
  cases n with
  | zero => omega
  | succ m =>
    rw [List.range_succ_eq_map]
    simp

theorem C1_computeNormals_area_weight_counterexample :
    computeNormalsCore [((0 : ℝ), 0, 0), (0, 0, 1), (4, -3, 0), (-8, -6, 0)]
        (some [0, 1, 2, 0, 1, 3]) ≠
      computeNormalsClaim [((0 : ℝ), 0, 0), (0, 0, 1), (4, -3, 0), (-8, -6, 0)]
        (some [0, 1, 2, 0, 1, 3]) := by
  have s25 : Real.sqrt 25 = 5 := by
    rw [show (25 : ℝ) = 5 ^ 2 by norm_num]
    exact Real.sqrt_sq (by norm_num)
  have s100 : Real.sqrt 100 = 10 := by
    rw [show (100 : ℝ) = 10 ^ 2 by norm_num]
    exact Real.sqrt_sq (by norm_num)
  have s3625 : Real.sqrt (36 / 25) = 6 / 5 := by
    rw [show (36 / 25 : ℝ) = (6 / 5) ^ 2 by norm_num]
    exact Real.sqrt_sq (by norm_num)
  have s97 : (0 : ℝ) < Real.sqrt 97 := Real.sqrt_pos.mpr (by norm_num)
  have hc1 : faceCrossAt [((0 : ℝ), 0, 0), (0, 0, 1), (4, -3, 0), (-8, -6, 0)]
      (0, 1, 2) = ((3 : ℝ), 4, 0) := by
    norm_num [faceCrossAt, rget, vcross, List.getD, Prod.mk_sub_mk]
  have hc2 : faceCrossAt [((0 : ℝ), 0, 0), (0, 0, 1), (4, -3, 0), (-8, -6, 0)]
      (0, 1, 3) = ((6 : ℝ), -8, 0) := by
    norm_num [faceCrossAt, rget, vcross, List.getD, Prod.mk_sub_mk]
  have hn1 : faceNormalAt [((0 : ℝ), 0, 0), (0, 0, 1), (4, -3, 0), (-8, -6, 0)]
      (0, 1, 2) = ((3 : ℝ) / 5, 4 / 5, 0) := by
    rw [faceNormalAt, hc1]
    unfold glNormalize
    rw [show sqrLenR ((3 : ℝ), 4, 0) = 25 by norm_num [sqrLenR]]
    rw [if_pos (by norm_num), s25]
    norm_num
  have hn2 : faceNormalAt [((0 : ℝ), 0, 0), (0, 0, 1), (4, -3, 0), (-8, -6, 0)]
      (0, 1, 3) = ((3 : ℝ) / 5, -(4 / 5), 0) := by
    rw [faceNormalAt, hc2]
    unfold glNormalize
    rw [show sqrLenR ((6 : ℝ), -8, 0) = 100 by norm_num [sqrLenR]]
    rw [if_pos (by norm_num), s100]
    norm_num
  have hacc : normalsAccum [((0 : ℝ), 0, 0), (0, 0, 1), (4, -3, 0), (-8, -6, 0)]
      [(0, 1, 2), (0, 1, 3)] 0 = ((6 : ℝ) / 5, 0, 0) := by
    unfold normalsAccum
    rw [normalsFold_apply]
    simp only [List.map_cons, List.map_nil, List.sum_cons, List.sum_nil, add_zero,
      hn1, hn2]
    norm_num [triCount, Prod.mk_add_mk]
  have hL0 : (computeNormalsCore [((0 : ℝ), 0, 0), (0, 0, 1), (4, -3, 0), (-8, -6, 0)]
      (some [0, 1, 2, 0, 1, 3])).getD 0 ((0 : ℝ), 0, 0) = ((1 : ℝ), 0, 0) := by
    unfold computeNormalsCore
    simp only [show chunk3N [0, 1, 2, 0, 1, 3] = [(0, 1, 2), (0, 1, 3)] from rfl]
    rw [getD_map_range _ _ (by simp)]
    rw [hacc]
    unfold glNormalize
    rw [show sqrLenR ((6 : ℝ) / 5, 0, 0) = 36 / 25 by norm_num [sqrLenR]]
    rw [if_pos (by norm_num), s3625]
    norm_num
  have hR0 : ((computeNormalsClaim [((0 : ℝ), 0, 0), (0, 0, 1), (4, -3, 0), (-8, -6, 0)]
      (some [0, 1, 2, 0, 1, 3])).getD 0 ((0 : ℝ), 0, 0)).2.1 < 0 := by
    unfold computeNormalsClaim
    simp only [show chunk3N [0, 1, 2, 0, 1, 3] = [(0, 1, 2), (0, 1, 3)] from rfl,
      List.map_cons, List.map_nil, List.sum_cons, List.sum_nil, add_zero, hc1, hc2]
    rw [getD_map_range _ _ (by simp)]
    have hsum : (triCount 0 (0, 1, 2) • ((3 : ℝ), (4 : ℝ), (0 : ℝ)) +
        triCount 0 (0, 1, 3) • ((6 : ℝ), (-8 : ℝ), (0 : ℝ))) = ((9 : ℝ), -4, 0) := by
      norm_num [triCount, Prod.mk_add_mk]
    rw [hsum]
    unfold glNormalize
    rw [show sqrLenR ((9 : ℝ), -4, 0) = 97 by norm_num [sqrLenR]]
    rw [if_pos (by norm_num)]
    show (-4 : ℝ) / Real.sqrt 97 < 0
    exact div_neg_of_neg_of_pos (by norm_num) s97
  intro heq
  have h2 := congrArg (fun l => (l.getD 0 ((0 : ℝ), 0, 0)).2.1) heq
  simp only [hL0] at h2
  rw [← h2] at hR0
  norm_num at hR0

end LiteGL
